import Mathlib

/-!
Verification of the connection/query execution lifecycle of the Kqlmagic
notebook extension (`src/azure/Kqlmagic/kql_magic.py`).

The shallow embedding below translates `Kqlmagic.execute_query`
(kql_magic.py lines 501-708), its helpers `_get_connection_info` and
`_show_connection_info` (lines 484-495), and
`Kqlmagic.execute_use_cache_command` (lines 171-185) into pure Lean
functions.  External collaborators that are not part of the excerpt
(the connection registry, the engines' `validate`/`execute`, the
parameterizer, the schema-file generator, the clock) are modelled as an
explicit environment `Env` of oracle functions; observable side effects
(display calls, popups, cache writes, probe invocations) are recorded in
an event trace.  All machine behavior is derived from the Python source;
the few methods of `ResultSet` (Kqlmagic/results.py, not in the excerpt)
that the lifecycle calls are modelled from the spec and marked as such.
-/

namespace Kqlmagic

/-- Python `str.find` helper: does `pat` occur at the head of `s`? -/
def listStartsWith : List Char → List Char → Bool
  | _, [] => true
  | [], _ :: _ => false
  | c :: cs, d :: ds => c == d && listStartsWith cs ds

/-- Scan for the first occurrence of `pat`, returning its index. -/
def subFindAux (pat : List Char) : List Char → Nat → Option Nat
  | [], i => if listStartsWith [] pat then some i else none
  | c :: rest, i =>
    if listStartsWith (c :: rest) pat then some i
    else subFindAux pat rest (i + 1)

/-- Python `s.find(pat)`: lowest index of `pat` in `s`, `-1` if absent. -/
def pyFind (s pat : String) : Int :=
  match subFindAux pat.data s.data 0 with
  | some i => (i : Int)
  | none => -1

/-- Engine kinds registered in `_ENGINES` (kql_magic.py line 46). -/
inductive EngineKind where
  | kusto
  | appinsights
  | loganalytics
  | cacheEngine
deriving DecidableEq, Repr

/-- The engine-specific data of a resolved connection: the pieces of
`KqlEngine` state that `execute_query` reads (`get_database`,
`get_cluster`, `get_conn_name`, `_URI_SCHEMA_NAME`, `isinstance` kind). -/
structure ConnData where
  kind : EngineKind
  cluster : String
  database : String
  connName : String
  uriSchemaName : String
deriving DecidableEq, Repr

/-- The per-connection one-time-done flags kept in the connection's
mutable `options` overlay (kql_magic.py lines 544, 567, 571, 576, 577, 580). -/
structure ConnFlags where
  validate_connection_string_done : Bool
  auto_popup_schema_done : Bool
  add_schema_to_help_done : Bool
deriving DecidableEq, Repr

/-- A freshly created connection has no done-flags set. -/
def freshFlags : ConnFlags :=
  { validate_connection_string_done := false
    auto_popup_schema_done := false
    add_schema_to_help_done := false }

/-- Raw backend query result, as far as the lifecycle inspects it:
column bindings (for `to_dict`), the partial flag and the record count. -/
structure RawResult where
  columns : List (String × Nat)
  isIncomplete : Bool
  recordsCount : Nat
deriving DecidableEq, Repr

/-- Feedback strings appended to `saved_result.feedback_info`
(kql_magic.py lines 640, 647, 654, 660, 667, 671, 675); the elapsed-time
float formatting is abstracted into the constructor's payload. -/
inductive FeedbackItem where
  | doneRecords (count : Nat)
  | returningRawData
  | returningDataframe
  | returningToVar (v : String)
  | resultsCached
  | savedAsFile
  | savedToFolder
deriving DecidableEq, Repr

/-- Modelled from the spec: the `ResultSet` class of Kqlmagic/results.py
is not part of the excerpt; this record carries the fields that
`execute_query` creates, reads and mutates, per spec section 3
(raw result, cached parametrized query, fork id, feedback messages,
metadata, partial flag, suppression flags).  Its methods used by the
lifecycle — `to_dict` (column-name-to-data mapping), `to_dataframe`
(dataframe view of the raw result), `is_partial_table`,
`records_count`, and the continuation update `fork_result(0)` +
`_update` (in-place refresh keeping identity) — are modelled from the
spec's description inside `shapePhase`. -/
structure RS where
  raw : RawResult
  parametrized_query : String
  fork_table_id : Nat
  feedback_info : List FeedbackItem
  conn_info : List String
  connectionName : String
  start_time : Nat
  end_time : Nat
  suppress_result : Bool
  display_info : Bool
deriving DecidableEq, Repr

/-- Values bound in the user namespace by `execute_query`. -/
inductive Value where
  | rs (r : RS)
  | df (raw : RawResult)
  | forkView (r : RS) (id : Nat)
  | data (d : Nat)
deriving DecidableEq, Repr

/-- Observable side effects of one `execute_query` run, in order. -/
inductive Event where
  | dangerMessage (msg : String)
  | infoMessage (msg : String)
  | warningMessage (msg : String)
  | successMessage
  | showConnList (msgs : List String)
  | getSchemaFilePath (conn : String)
  | popupSchema (conn : String) (path : String)
  | addMenuItem (name : String) (path : String)
  | executeCall (conn : String) (query : String)
  | cacheSave
  | forkCreate
  | forkUpdate
  | setValidationResult (ok : Bool)
deriving DecidableEq, Repr

/-- Python exceptions distinguished by `execute_query`'s handlers. -/
inductive PyErr where
  | kqlEngineError (msg : String)
  | connectionError (msg : String)
  | exception (msg : String)
deriving DecidableEq, Repr

/-- Message text `str(e)` of a modelled exception. -/
def PyErr.msg : PyErr → String
  | .kqlEngineError m => m
  | .connectionError m => m
  | .exception m => m

/-- Errors that `Connection.get_connection` may raise: the
connection-string format error and the generic connection error, the
two kinds named by the spec for the registry collaborator. -/
inductive ResolveErr where
  | kqlEngineErr (m : String)
  | connectionErr (m : String)
deriving DecidableEq, Repr

/-- View a resolution error as the exception object it is raised as. -/
def ResolveErr.toPyErr : ResolveErr → PyErr
  | .kqlEngineErr m => PyErr.kqlEngineError m
  | .connectionErr m => PyErr.connectionError m

/-- Outcome of `Connection.get_connection`. -/
inductive ResolveRes where
  | ok (c : ConnData)
  | err (e : ResolveErr)
deriving DecidableEq, Repr

/-- Outcome of `conn.execute`. -/
inductive ExecuteRes where
  | ok (r : RawResult)
  | err (m : String)
deriving DecidableEq, Repr

/-- Outcome of `execute_query` towards its caller: either a returned
value (possibly `None`) or a propagating exception. -/
inductive PyRet where
  | ok (v : Option Value)
  | raised (e : PyErr)
deriving DecidableEq, Repr

/-- Oracle model of the external collaborators consumed by the
lifecycle: registry resolution, validation probe outcome, backend
execution, schema-file generation, parameter expansion, the formatted
connection lists, and the clock. -/
structure Env where
  resolve : String → ResolveRes
  validateOutcome : ConnData → Option String
  executeOutcome : ConnData → String → ExecuteRes
  schemaFilePath : ConnData → String
  expand : String → String
  connListFormatted : List String
  currentConnFormatted : String
  startTime : Nat
  endTime : Nat

/-- The invocation option bag (`parsed["options"]`): a partial mapping
from option name to value; `none` means the option was not supplied. -/
structure OptionsBag where
  suppress_results : Option Bool
  enable_suppress_result : Option Bool
  short_errors : Option Bool
  validate_connection_string : Option Bool
  popup_schema : Option Bool
  auto_popup_schema : Option Bool
  add_schema_to_help : Option Bool
  feedback : Option Bool
  columns_to_local_vars : Option Bool
  auto_dataframe : Option Bool
  result_var : Option String
  cache : Option String
  use_cache : Option String
  save_as : Option String
  save_to : Option String
  last_raw_result_var : Option String
  show_conn_info : Option String
deriving DecidableEq, Repr

/-- An option bag with no option supplied. -/
def emptyOptions : OptionsBag :=
  { suppress_results := none, enable_suppress_result := none
    short_errors := none, validate_connection_string := none
    popup_schema := none, auto_popup_schema := none
    add_schema_to_help := none, feedback := none
    columns_to_local_vars := none, auto_dataframe := none
    result_var := none, cache := none, use_cache := none
    save_as := none, save_to := none, last_raw_result_var := none
    show_conn_info := none }

/-- The configuration traits of the `Kqlmagic` class that
`execute_query` consults as fallbacks (kql_magic.py lines 58-126). -/
structure Config where
  short_errors : Bool
  auto_dataframe : Bool
  columns_to_local_vars : Bool
  feedback : Bool
  enable_suppress_result : Bool
  validate_connection_string : Bool
  auto_popup_schema : Bool
  add_schema_to_help : Bool
  last_raw_result_var : String
  show_conn_info : String
deriving DecidableEq, Repr

/-- Trait defaults as declared on the class (kql_magic.py lines 65, 72,
73, 74, 75-81, 95-98, 106-109, 124). -/
def defaultConfig : Config :=
  { short_errors := true
    auto_dataframe := false
    columns_to_local_vars := false
    feedback := true
    enable_suppress_result := true
    validate_connection_string := true
    auto_popup_schema := true
    add_schema_to_help := true
    last_raw_result_var := "_kql_raw_result_"
    show_conn_info := "current" }

/-- Read `options.get("short_errors", self.short_errors)` (lines 525, 535, 704). -/
def optShortErrors (o : OptionsBag) (c : Config) : Bool :=
  o.short_errors.getD c.short_errors

/-- Read `options.get("validate_connection_string", self.validate_connection_string)` (line 544). -/
def optValidateCS (o : OptionsBag) (c : Config) : Bool :=
  o.validate_connection_string.getD c.validate_connection_string

/-- Read `options.get("auto_popup_schema", self.auto_popup_schema)` (line 571). -/
def optAutoPopupSchema (o : OptionsBag) (c : Config) : Bool :=
  o.auto_popup_schema.getD c.auto_popup_schema

/-- Read `options.get("add_schema_to_help")` (line 577): done with no trait
fallback, so an absent option is falsy. -/
def optAddSchemaToHelp (o : OptionsBag) : Bool :=
  o.add_schema_to_help.getD false

/-- Read `options.get("feedback", self.feedback)` (lines 638, 646, 653, 659, 666, 670, 673). -/
def optFeedback (o : OptionsBag) (c : Config) : Bool :=
  o.feedback.getD c.feedback

/-- Read `options.get("columns_to_local_vars", self.columns_to_local_vars)` (line 642). -/
def optC2LV (o : OptionsBag) (c : Config) : Bool :=
  o.columns_to_local_vars.getD c.columns_to_local_vars

/-- Read `options.get("auto_dataframe", self.auto_dataframe)` (lines 652, 682). -/
def optAutoDataframe (o : OptionsBag) (c : Config) : Bool :=
  o.auto_dataframe.getD c.auto_dataframe

/-- Read `options.get("enable_suppress_result", self.enable_suppress_result)` (line 511). -/
def optEnableSuppress (o : OptionsBag) (c : Config) : Bool :=
  o.enable_suppress_result.getD c.enable_suppress_result

/-- Read `options.get("last_raw_result_var", self.last_raw_result_var)` (line 693). -/
def optLastVar (o : OptionsBag) (c : Config) : String :=
  o.last_raw_result_var.getD c.last_raw_result_var

/-- Read `options.get("show_conn_info", self.show_conn_info)` (line 485). -/
def optShowConnInfo (o : OptionsBag) (c : Config) : String :=
  o.show_conn_info.getD c.show_conn_info

/-- Line 511: `options.get("suppress_results", False) and
options.get("enable_suppress_result", self.enable_suppress_result)`. -/
def pySuppressResults (o : OptionsBag) (c : Config) : Bool :=
  o.suppress_results.getD false && optEnableSuppress o c

/-- Python truthiness of `options.get("result_var")`: present and non-empty. -/
def optStrTruthy : Option String → Bool
  | some s => !(s == "")
  | none => false

/-- Model of `Kqlmagic._get_connection_info` (lines 484-490), keyed by the
consulted `show_conn_info` mode. -/
def get_connection_info (env : Env) (mode : String) : List String :=
  if mode = "current" then env.connListFormatted
  else if mode = "list" then [env.currentConnFormatted]
  else []

/-- Model of `Kqlmagic._show_connection_info` (lines 492-495): display the
formatted connection info when it is non-empty. -/
def show_connection_info_events (env : Env) (mode : String) : List Event :=
  if (get_connection_info env mode).length > 0 then
    [Event.showConnList (get_connection_info env mode)]
  else []

/-- Process-wide mutable state surviving between invocations: the
connection registry (per-connection done-flag overlays, keyed by
connection name) and the caller-visible user namespace. -/
structure MagicState where
  registry : List (String × ConnFlags)
  ns : List (String × Value)
deriving DecidableEq, Repr

/-- Flag overlay of a connection; fresh (all-false) if not registered. -/
def getFlags (reg : List (String × ConnFlags)) (name : String) : ConnFlags :=
  match reg.lookup name with
  | some f => f
  | none => freshFlags

/-- Store a connection's flag overlay (insert or update). -/
def setReg (reg : List (String × ConnFlags)) (name : String) (f : ConnFlags) :
    List (String × ConnFlags) :=
  match reg with
  | [] => [(name, f)]
  | (n, g) :: rest => if n = name then (n, f) :: rest else (n, g) :: setReg rest name f

/-- Register a connection if absent, keeping its flags if present. -/
def ensureConn (reg : List (String × ConnFlags)) (name : String) :
    List (String × ConnFlags) :=
  setReg reg name (getFlags reg name)

/-- Model of a ParsedInvocation: one parsed magic invocation. -/
structure Parsed where
  line : String
  cell : String
  connection : String
  query : String
  options : OptionsBag
deriving Repr

/-- Python `str.strip()` helper: drop leading whitespace characters. -/
def dropLeadingSpaces : List Char → List Char
  | [] => []
  | c :: rest => if c.isWhitespace then dropLeadingSpaces rest else c :: rest

/-- Python `s.strip()`: strip whitespace from both ends (line 509). -/
def pyStrip (s : String) : String :=
  String.mk ((dropLeadingSpaces (dropLeadingSpaces s.data.reverse).reverse))

/-- Line 551: the multi-factor-authentication retry condition:
`msg.find("AADSTS50079") > 0 and msg.find("multi-factor authentication") > 0
and isinstance(conn, KustoEngine)`. -/
def mfaSignature (m : String) (k : EngineKind) : Bool :=
  pyFind m "AADSTS50079" > 0 && pyFind m "multi-factor authentication" > 0 &&
    k == EngineKind.kusto

/-- Line 562: the device-code connection string rebuilt for the retry. -/
def codeConnStr (c : ConnData) : String :=
  c.uriSchemaName ++ "://code().cluster('" ++ c.cluster ++ "').database('" ++
    c.database ++ "')"

/-- Line 526: the short-error hint shown for connection-string format errors. -/
def connHelpHint : String := "to get help on connection string formats, run: %kql --help 'conn'"

/-- Outcome of the connection-resolution block (lines 517-540): either
the invocation was finished there (short-error return or re-raise) or a
connection was obtained. -/
inductive ResolveOutcome where
  | handled (events : List Event) (ret : PyRet)
  | got (conn : ConnData)

/-- Lines 517-540: `Connection.get_connection` plus the two dedicated
parse-error handlers. -/
def resolvePhase (cfg : Config) (env : Env) (cs : String) (opts : OptionsBag) :
    ResolveOutcome :=
  match env.resolve cs with
  | ResolveRes.ok conn => ResolveOutcome.got conn
  | ResolveRes.err (ResolveErr.kqlEngineErr m) =>
    if optShortErrors opts cfg then
      ResolveOutcome.handled [Event.dangerMessage m, Event.infoMessage connHelpHint]
        (PyRet.ok none)
    else
      ResolveOutcome.handled [] (PyRet.raised (PyErr.kqlEngineError m))
  | ResolveRes.err (ResolveErr.connectionErr m) =>
    if optShortErrors opts cfg then
      ResolveOutcome.handled
        ([Event.dangerMessage m] ++ show_connection_info_events env "list")
        (PyRet.ok none)
    else
      ResolveOutcome.handled [] (PyRet.raised (PyErr.connectionError m))

/-- Output of the validation block (lines 544-565): the connection and
connection string in effect afterwards (both may have been replaced by
the device-code retry), the display events, the probe and resolution
calls it performed, and the exception propagating to the outer handler
if validation failed unrecovered. -/
structure ValidateOut where
  conn : ConnData
  cs : String
  events : List Event
  resolveCalls : List String
  validateCalls : List String
  err : Option PyErr

/-- Lines 544-565: the one-time validation probe with its single MFA
device-code retry. -/
def validatePhase (cfg : Config) (env : Env) (reg : List (String × ConnFlags))
    (conn : ConnData) (cs : String) (opts : OptionsBag) : ValidateOut :=
  if !(getFlags reg conn.connName).validate_connection_string_done &&
      optValidateCS opts cfg then
    match env.validateOutcome conn with
    | none =>
      { conn := conn, cs := cs, events := [Event.setValidationResult true]
        resolveCalls := [], validateCalls := [conn.connName], err := none }
    | some m =>
      if mfaSignature m conn.kind then
        let evs := [Event.dangerMessage m,
          Event.infoMessage "replaced connection with code authentication"]
        let cs2 := codeConnStr conn
        match env.resolve cs2 with
        | ResolveRes.err e =>
          { conn := conn, cs := cs2, events := evs, resolveCalls := [cs2]
            validateCalls := [conn.connName], err := some e.toPyErr }
        | ResolveRes.ok conn2 =>
          match env.validateOutcome conn2 with
          | some m2 =>
            { conn := conn2, cs := cs2, events := evs, resolveCalls := [cs2]
              validateCalls := [conn.connName, conn2.connName]
              err := some (PyErr.exception m2) }
          | none =>
            { conn := conn2, cs := cs2
              events := evs ++ [Event.setValidationResult true]
              resolveCalls := [cs2]
              validateCalls := [conn.connName, conn2.connName], err := none }
      else
        { conn := conn, cs := cs, events := [], resolveCalls := []
          validateCalls := [conn.connName], err := some (PyErr.exception m) }
  else
    { conn := conn, cs := cs, events := [], resolveCalls := []
      validateCalls := [], err := none }

/-- Output of the schema popup / help registration block. -/
structure SchemaOut where
  flags : ConnFlags
  events : List Event

/-- Lines 569-580: the one-time schema popup and help-menu registration,
with the schema file path shared between the two branches
(`schema_file_path or ...` reuses it only when it is truthy). -/
def schemaPhase (cfg : Config) (env : Env) (f : ConnFlags) (conn : ConnData)
    (opts : OptionsBag) : SchemaOut :=
  let popupCond := opts.popup_schema.getD false ||
    (!f.auto_popup_schema_done && optAutoPopupSchema opts cfg)
  let popup : Option String × List Event :=
    if popupCond then
      (some (env.schemaFilePath conn),
       [Event.getSchemaFilePath conn.connName,
        Event.popupSchema conn.connName (env.schemaFilePath conn)])
    else (none, [])
  let path1 : Option String := popup.1
  let evs1 : List Event := popup.2
  let f1 := { f with auto_popup_schema_done := true }
  if !f1.add_schema_to_help_done && optAddSchemaToHelp opts then
    match path1 with
    | some p =>
      if p = "" then
        { flags := { f1 with add_schema_to_help_done := true }
          events := evs1 ++ [Event.getSchemaFilePath conn.connName,
            Event.addMenuItem conn.connName (env.schemaFilePath conn)] }
      else
        { flags := { f1 with add_schema_to_help_done := true }
          events := evs1 ++ [Event.addMenuItem conn.connName p] }
    | none =>
      { flags := { f1 with add_schema_to_help_done := true }
        events := evs1 ++ [Event.getSchemaFilePath conn.connName,
          Event.addMenuItem conn.connName (env.schemaFilePath conn)] }
  else
    { flags := f1, events := evs1 }

/-- The running value of the local variable `result` during result
shaping: the `saved_result` object itself, `None`, or the dataframe. -/
inductive ShapeRes where
  | savedRes
  | noneRes
  | dfRes
deriving DecidableEq, Repr

/-- Line 595: the parametrized query (fresh expansion, or the one cached
on the continued result set). -/
def pqOf (env : Env) (query : String) : Option RS → String
  | none => env.expand query
  | some r => r.parametrized_query

/-- Output of the result-shaping pipeline.  `saved` is the
`saved_result` ResultSet object in its final state (all later mutations
applied), as also bound into the namespace. -/
structure ShapeOut where
  events : List Event
  ns : List (String × Value)
  ret : Option Value
  saved : RS

/-- Lines 600-697: persistence of the raw result, ResultSet
creation/in-place update, and the ordered option-gated result shaping
pipeline, given the raw backend result. -/
def shapePhase (cfg : Config) (env : Env) (regNonEmpty : Bool)
    (ns0 : List (String × Value)) (conn : ConnData) (cs : String)
    (opts : OptionsBag) (suppress : Bool) (result_set : Option RS)
    (pq : String) (raw : RawResult) : ShapeOut :=
  let evsSave := (if opts.save_as ≠ none then [Event.cacheSave] else []) ++
    (if opts.save_to ≠ none then [Event.cacheSave] else [])
  let fork_table_id := match result_set with
    | none => 0
    | some r => r.fork_table_id
  let conn_info := if cs = "" ∧ regNonEmpty then
      get_connection_info env (optShowConnInfo opts cfg)
    else []
  let rs0 : RS := match result_set with
    | none =>
      { raw := raw, parametrized_query := pq, fork_table_id := 0
        feedback_info := [], conn_info := conn_info
        connectionName := conn.connName
        start_time := env.startTime, end_time := env.endTime
        suppress_result := false, display_info := false }
    | some old =>
      { old with
        raw := raw
        feedback_info := []
        conn_info := conn_info
        start_time := env.startTime
        end_time := env.endTime }
  let evsWarn := if raw.isIncomplete && !suppress then
      [Event.warningMessage "partial results, query had errors"]
    else []
  let fb := optFeedback opts cfg
  let fb1 : List FeedbackItem :=
    if fb then [FeedbackItem.doneRecords raw.recordsCount] else []
  let c2lv := optC2LV opts cfg
  let fb2 := fb1 ++ (if c2lv && fb then [FeedbackItem.returningRawData] else [])
  let r1 := if c2lv then ShapeRes.noneRes else ShapeRes.savedRes
  let adf := optAutoDataframe opts cfg
  let fb3 := fb2 ++ (if adf && fb then [FeedbackItem.returningDataframe] else [])
  let r2 := if adf then ShapeRes.dfRes else r1
  let rvActive := optStrTruthy opts.result_var && result_set.isNone
  let fb4 := fb3 ++ (if rvActive && fb then
      [FeedbackItem.returningToVar (opts.result_var.getD "")]
    else [])
  let r3 := if rvActive then ShapeRes.noneRes else r2
  let cacheActive : Bool := opts.cache ≠ none ∧ opts.cache ≠ opts.use_cache
  let evsCache := if cacheActive then [Event.cacheSave] else []
  let fb5 := fb4 ++ (if cacheActive && fb then [FeedbackItem.resultsCached] else [])
  let fb6 := fb5 ++ (if opts.save_as ≠ none ∧ fb then [FeedbackItem.savedAsFile] else [])
  let fb7 := fb6 ++ (if opts.save_to ≠ none ∧ fb then [FeedbackItem.savedToFolder] else [])
  let notNone : Bool := r3 ≠ ShapeRes.noneRes
  let supFlag : Bool := notNone && suppress
  let evsSup : List Event :=
    if notNone && !suppress && adf then [Event.successMessage] else []
  let dispFlag : Bool := notNone && !suppress && !adf
  let evsFork := if result_set.isNone then [Event.forkCreate] else [Event.forkUpdate]
  let rsFinal := { rs0 with
    feedback_info := fb7
    suppress_result := supFlag
    display_info := dispFlag }
  let ns1 := if c2lv then
      (raw.columns.map (fun cd => (cd.1, Value.data cd.2))) ++ ns0
    else ns0
  let rvVal := match r2 with
    | ShapeRes.dfRes => Value.df raw
    | _ => Value.rs rsFinal
  let ns2 := if rvActive then (opts.result_var.getD "", rvVal) :: ns1 else ns1
  let ns3 := (optLastVar opts cfg, Value.rs rsFinal) :: ns2
  let retVal : Option Value := match r3 with
    | ShapeRes.savedRes => some (Value.forkView rsFinal fork_table_id)
    | ShapeRes.dfRes => some (Value.df raw)
    | ShapeRes.noneRes => none
  { events := evsSave ++ evsWarn ++ evsCache ++ evsSup ++ evsFork
    ns := ns3
    ret := retVal
    saved := rsFinal }

/-- Outcome of the query submission and result shaping block. -/
inductive QueryOutcome where
  | ok (events : List Event) (ns : List (String × Value)) (ret : Option Value)
  | err (events : List Event) (e : PyErr)

/-- Lines 582-697: empty-query short circuit, backend execution, and
the result-shaping pipeline. -/
def queryPhase (cfg : Config) (env : Env) (regNonEmpty : Bool)
    (ns0 : List (String × Value)) (conn : ConnData) (cs : String)
    (query : String) (opts : OptionsBag) (suppress : Bool)
    (result_set : Option RS) : QueryOutcome :=
  if query = "" then
    QueryOutcome.ok
      (if cs = "" ∧ regNonEmpty ∧ !suppress then
        show_connection_info_events env (optShowConnInfo opts cfg)
      else []) ns0 none
  else
    match env.executeOutcome conn (pqOf env query result_set) with
    | ExecuteRes.err m =>
      QueryOutcome.err [Event.executeCall conn.connName (pqOf env query result_set)]
        (PyErr.exception m)
    | ExecuteRes.ok raw =>
      QueryOutcome.ok
        ([Event.executeCall conn.connName (pqOf env query result_set)] ++
          (shapePhase cfg env regNonEmpty ns0 conn cs opts suppress result_set
            (pqOf env query result_set) raw).events)
        (shapePhase cfg env regNonEmpty ns0 conn cs opts suppress result_set
          (pqOf env query result_set) raw).ns
        (shapePhase cfg env regNonEmpty ns0 conn cs opts suppress result_set
          (pqOf env query result_set) raw).ret

/-- Lines 699-708: the outer exception handler of `execute_query`:
conditionally show the connection list, then either display the error
shortly and return `None` or re-raise it. -/
def outerHandler (cfg : Config) (env : Env) (opts : OptionsBag) (cs : String)
    (regNonEmpty suppress : Bool) (e : PyErr) : List Event × PyRet :=
  let evs1 := if cs = "" ∧ regNonEmpty ∧ !suppress then
      show_connection_info_events env (optShowConnInfo opts cfg)
    else []
  if optShortErrors opts cfg then
    (evs1 ++ [Event.dangerMessage e.msg], PyRet.ok none)
  else
    (evs1, PyRet.raised e)

/-- The complete observable outcome of one `execute_query` call. -/
structure ExecResult where
  registry : List (String × ConnFlags)
  ns : List (String × Value)
  events : List Event
  resolveCalls : List String
  validateCalls : List String
  ret : PyRet

/-- Model of `Kqlmagic.execute_query` (kql_magic.py lines 501-708). -/
def execute_query (cfg : Config) (env : Env) (st : MagicState)
    (parsed : Parsed) (result_set : Option RS) : ExecResult :=
  let query := pyStrip parsed.query
  let opts := parsed.options
  let suppress := pySuppressResults opts cfg
  let cs0 := parsed.connection
  if query = "" ∧ cs0 = "" then
    { registry := st.registry, ns := st.ns, events := []
      resolveCalls := [], validateCalls := [], ret := PyRet.ok none }
  else
    match resolvePhase cfg env cs0 opts with
    | ResolveOutcome.handled evs ret =>
      { registry := st.registry, ns := st.ns, events := evs
        resolveCalls := [cs0], validateCalls := [], ret := ret }
    | ResolveOutcome.got conn =>
      let reg1 := ensureConn st.registry conn.connName
      let v := validatePhase cfg env reg1 conn cs0 opts
      let reg2 := ensureConn reg1 v.conn.connName
      match v.err with
      | some e =>
        let h := outerHandler cfg env opts v.cs (!reg2.isEmpty) suppress e
        { registry := reg2, ns := st.ns, events := v.events ++ h.1
          resolveCalls := [cs0] ++ v.resolveCalls
          validateCalls := v.validateCalls, ret := h.2 }
      | none =>
        let f1 := { getFlags reg2 v.conn.connName with
          validate_connection_string_done := true }
        let s := schemaPhase cfg env f1 v.conn opts
        let reg3 := setReg reg2 v.conn.connName s.flags
        match queryPhase cfg env (!reg3.isEmpty) st.ns v.conn v.cs query opts
            suppress result_set with
        | QueryOutcome.ok qEvs ns' ret =>
          { registry := reg3, ns := ns', events := v.events ++ s.events ++ qEvs
            resolveCalls := [cs0] ++ v.resolveCalls
            validateCalls := v.validateCalls, ret := PyRet.ok ret }
        | QueryOutcome.err qEvs e =>
          let h := outerHandler cfg env opts v.cs (!reg3.isEmpty) suppress e
          { registry := reg3, ns := st.ns
            events := v.events ++ s.events ++ qEvs ++ h.1
            resolveCalls := [cs0] ++ v.resolveCalls
            validateCalls := v.validateCalls, ret := h.2 }

/-- Mutable attributes touched by the cache commands. -/
structure CacheState where
  cache : Option String
  use_cache : Option String
deriving DecidableEq, Repr

/-- Model of `Kqlmagic.execute_use_cache_command` (kql_magic.py lines 171-185),
restricted to its state effect. -/
def execute_use_cache_command (s : CacheState) (cache_name : Option String) :
    CacheState :=
  match cache_name with
  | some n =>
    if n ≠ "None" ∧ n.length > 0 then { s with cache := some n }
    else { s with cache := none }
  | none => { s with cache := none }

/-- Fold `execute_query` over a sequence of invocations, threading the
process-wide state and concatenating the event traces. -/
def runSeq (cfg : Config) (env : Env) : MagicState → List Parsed →
    MagicState × List Event
  | st, [] => (st, [])
  | st, p :: rest =>
    let r := execute_query cfg env st p none
    let tl := runSeq cfg env { registry := r.registry, ns := r.ns } rest
    (tl.1, r.events ++ tl.2)

/-- Count the events satisfying a predicate. -/
def countE (p : Event → Bool) (l : List Event) : Nat :=
  (l.filter p).length

/-- Is this event a schema popup for connection `c`? -/
def isPopupFor (c : String) : Event → Bool
  | Event.popupSchema n _ => n == c
  | _ => false

/-- Is this event a help-menu registration for connection `c`? -/
def isMenuFor (c : String) : Event → Bool
  | Event.addMenuItem n _ => n == c
  | _ => false

/-- Is this event a schema-file-path computation? -/
def isGetSchema : Event → Bool
  | Event.getSchemaFilePath _ => true
  | _ => false

/-- Is this event a connection-list display? -/
def isShowConnList : Event → Bool
  | Event.showConnList _ => true
  | _ => false

end Kqlmagic

/-! ### Registry and event-count helper lemmas -/

namespace Kqlmagic

theorem getFlags_setReg (reg : List (String × ConnFlags)) (n m : String)
    (f : ConnFlags) :
    getFlags (setReg reg n f) m = if n = m then f else getFlags reg m := by
  induction reg with
  | nil =>
    by_cases h : n = m
    · subst h; simp [setReg, getFlags, List.lookup]
    · have hb : (m == n) = false := beq_eq_false_iff_ne.mpr (Ne.symm h)
      simp [setReg, getFlags, List.lookup, hb, h]
  | cons hd tl ih =>
    obtain ⟨k, g⟩ := hd
    by_cases h : k = n
    · subst h
      by_cases h2 : k = m
      · subst h2
        simp [setReg, getFlags, List.lookup]
      · have hb : (m == k) = false := beq_eq_false_iff_ne.mpr (Ne.symm h2)
        simp [setReg, getFlags, List.lookup, hb, h2]
    · by_cases h2 : k = m
      · subst h2
        have hnm : ¬n = k := fun hh => h hh.symm
        simp [setReg, getFlags, List.lookup, h, hnm]
      · have hb : (m == k) = false := beq_eq_false_iff_ne.mpr (Ne.symm h2)
        simp [setReg, getFlags, List.lookup, h, hb] at ih ⊢
        exact ih

theorem getFlags_ensureConn (reg : List (String × ConnFlags)) (n m : String) :
    getFlags (ensureConn reg n) m = getFlags reg m := by
  unfold ensureConn
  rw [getFlags_setReg]
  by_cases h : n = m
  · subst h; simp
  · simp [h]

theorem setReg_ne_nil (reg : List (String × ConnFlags)) (n : String)
    (f : ConnFlags) : (setReg reg n f).isEmpty = false := by
  cases reg with
  | nil => simp [setReg]
  | cons hd tl =>
    unfold setReg
    split <;> simp

theorem ensureConn_ne_nil (reg : List (String × ConnFlags)) (n : String) :
    (ensureConn reg n).isEmpty = false := setReg_ne_nil reg n (getFlags reg n)

theorem countE_append (p : Event → Bool) (a b : List Event) :
    countE p (a ++ b) = countE p a + countE p b := by
  simp [countE, List.filter_append]

theorem countE_if_single (p : Event → Bool) (b : Prop) [Decidable b]
    (x : Event) :
    countE p (if b then [x] else []) = if b then (if p x then 1 else 0) else 0 := by
  split
  · simp [countE, List.filter_singleton]
    split <;> simp_all
  · simp [countE]

end Kqlmagic

/-! ### Event classification lemmas per phase -/

namespace Kqlmagic

theorem countE_nil (p : Event → Bool) : countE p [] = 0 := rfl

theorem countE_singleton (p : Event → Bool) (x : Event) :
    countE p [x] = if p x then 1 else 0 := by
  simp [countE, List.filter_singleton]
  split <;> simp_all

theorem countE_ite (p : Event → Bool) (b : Prop) [Decidable b]
    (x y : List Event) :
    countE p (if b then x else y) = if b then countE p x else countE p y := by
  split <;> rfl

theorem countE_cons (p : Event → Bool) (x : Event) (l : List Event) :
    countE p (x :: l) = (if p x then 1 else 0) + countE p l := by
  have : x :: l = [x] ++ l := rfl
  rw [this, countE_append, countE_singleton]

theorem show_conn_info_no_schema (env : Env) (mode : String) (c : String) :
    countE (isPopupFor c) (show_connection_info_events env mode) = 0 ∧
    countE (isMenuFor c) (show_connection_info_events env mode) = 0 := by
  unfold show_connection_info_events
  constructor <;> rw [countE_ite] <;> split <;>
    simp [countE_singleton, countE_nil, isPopupFor, isMenuFor]

theorem resolvePhase_handled_no_schema (cfg : Config) (env : Env)
    (cs : String) (opts : OptionsBag) (evs : List Event) (ret : PyRet)
    (c : String)
    (h : resolvePhase cfg env cs opts = ResolveOutcome.handled evs ret) :
    countE (isPopupFor c) evs = 0 ∧ countE (isMenuFor c) evs = 0 := by
  unfold resolvePhase at h
  split at h
  · exact ResolveOutcome.noConfusion h
  · split at h <;> cases h <;>
      constructor <;>
      simp [countE_cons, countE_nil, isPopupFor, isMenuFor]
  · split at h <;> cases h
    · constructor <;>
        rw [countE_append] <;>
        simp [countE_cons, countE_nil, isPopupFor, isMenuFor,
          (show_conn_info_no_schema env "list" c).1,
          (show_conn_info_no_schema env "list" c).2]
    · constructor <;> simp [countE_nil]

theorem validatePhase_no_schema (cfg : Config) (env : Env)
    (reg : List (String × ConnFlags)) (conn : ConnData) (cs : String)
    (opts : OptionsBag) (c : String) :
    countE (isPopupFor c) (validatePhase cfg env reg conn cs opts).events = 0 ∧
    countE (isMenuFor c) (validatePhase cfg env reg conn cs opts).events = 0 := by
  unfold validatePhase
  split
  · cases henv : env.validateOutcome conn with
    | none => simp [countE_cons, countE_nil, isPopupFor, isMenuFor]
    | some m =>
      by_cases hmfa : mfaSignature m conn.kind = true
      · cases hres : env.resolve (codeConnStr conn) with
        | ok conn2 =>
          cases hval2 : env.validateOutcome conn2 <;>
            simp [hmfa, hres, hval2, countE_append, countE_cons, countE_nil,
              isPopupFor, isMenuFor]
        | err e =>
          simp [hmfa, hres, countE_cons, countE_nil, isPopupFor, isMenuFor]
      · simp [hmfa, countE_cons, countE_nil, isPopupFor, isMenuFor]
  · simp [countE_nil]

theorem outerHandler_no_schema (cfg : Config) (env : Env) (opts : OptionsBag)
    (cs : String) (regNonEmpty suppress : Bool) (e : PyErr) (c : String) :
    countE (isPopupFor c)
      (outerHandler cfg env opts cs regNonEmpty suppress e).1 = 0 ∧
    countE (isMenuFor c)
      (outerHandler cfg env opts cs regNonEmpty suppress e).1 = 0 := by
  unfold outerHandler
  constructor <;>
  · split <;> split <;>
      simp [countE_append, countE_ite, countE_cons, countE_nil,
        isPopupFor, isMenuFor,
        (show_conn_info_no_schema env (optShowConnInfo opts cfg) c).1,
        (show_conn_info_no_schema env (optShowConnInfo opts cfg) c).2]

theorem shapePhase_no_schema (cfg : Config) (env : Env) (regNonEmpty : Bool)
    (ns0 : List (String × Value)) (conn : ConnData) (cs : String)
    (opts : OptionsBag) (suppress : Bool) (result_set : Option RS)
    (pq : String) (raw : RawResult) (c : String) :
    countE (isPopupFor c)
      (shapePhase cfg env regNonEmpty ns0 conn cs opts suppress result_set pq raw).events = 0 ∧
    countE (isMenuFor c)
      (shapePhase cfg env regNonEmpty ns0 conn cs opts suppress result_set pq raw).events = 0 := by
  constructor <;>
  · show countE _ (shapePhase cfg env regNonEmpty ns0 conn cs opts suppress
      result_set pq raw).events = 0
    simp only [shapePhase]
    simp [countE_append, countE_ite, countE_singleton, countE_nil,
      isPopupFor, isMenuFor]

theorem queryPhase_ok_no_schema (cfg : Config) (env : Env)
    (regNonEmpty : Bool) (ns0 : List (String × Value)) (conn : ConnData)
    (cs query : String) (opts : OptionsBag) (suppress : Bool)
    (result_set : Option RS) (evs : List Event) (ns : List (String × Value))
    (ret : Option Value) (c : String)
    (h : queryPhase cfg env regNonEmpty ns0 conn cs query opts suppress
      result_set = QueryOutcome.ok evs ns ret) :
    countE (isPopupFor c) evs = 0 ∧ countE (isMenuFor c) evs = 0 := by
  unfold queryPhase at h
  split at h
  · cases h
    constructor <;>
    · rw [countE_ite]
      split <;>
        simp [countE_nil,
          (show_conn_info_no_schema env (optShowConnInfo opts cfg) c).1,
          (show_conn_info_no_schema env (optShowConnInfo opts cfg) c).2]
  · split at h
    · exact QueryOutcome.noConfusion h
    · cases h
      constructor <;>
        rw [countE_append] <;>
        simp [countE_cons, countE_nil, isPopupFor, isMenuFor,
          (shapePhase_no_schema cfg env regNonEmpty ns0 conn cs opts suppress
            result_set (pqOf env query result_set) _ c).1,
          (shapePhase_no_schema cfg env regNonEmpty ns0 conn cs opts suppress
            result_set (pqOf env query result_set) _ c).2]

theorem queryPhase_err_no_schema (cfg : Config) (env : Env)
    (regNonEmpty : Bool) (ns0 : List (String × Value)) (conn : ConnData)
    (cs query : String) (opts : OptionsBag) (suppress : Bool)
    (result_set : Option RS) (evs : List Event) (e : PyErr) (c : String)
    (h : queryPhase cfg env regNonEmpty ns0 conn cs query opts suppress
      result_set = QueryOutcome.err evs e) :
    countE (isPopupFor c) evs = 0 ∧ countE (isMenuFor c) evs = 0 := by
  unfold queryPhase at h
  split at h
  · exact QueryOutcome.noConfusion h
  · split at h
    · cases h
      constructor <;> simp [countE_cons, countE_nil, isPopupFor, isMenuFor]
    · exact QueryOutcome.noConfusion h

end Kqlmagic

/-! ### schemaPhase characterization -/

namespace Kqlmagic

theorem schemaPhase_popup_count (cfg : Config) (env : Env) (f : ConnFlags)
    (conn : ConnData) (opts : OptionsBag) (c : String) :
    countE (isPopupFor c) (schemaPhase cfg env f conn opts).events =
      if (opts.popup_schema.getD false ||
          (!f.auto_popup_schema_done && optAutoPopupSchema opts cfg)) = true ∧
         conn.connName = c then 1 else 0 := by
  unfold schemaPhase
  by_cases hp : (opts.popup_schema.getD false ||
      (!f.auto_popup_schema_done && optAutoPopupSchema opts cfg)) = true <;>
  by_cases hc : conn.connName = c <;>
  by_cases ha : (!f.add_schema_to_help_done && optAddSchemaToHelp opts) = true <;>
  by_cases hpe : env.schemaFilePath conn = "" <;>
    simp [hp, hc, ha, hpe, countE_append, countE_cons, countE_nil,
      countE_singleton, isPopupFor, beq_iff_eq, beq_eq_false_iff_ne]

theorem schemaPhase_menu_count (cfg : Config) (env : Env) (f : ConnFlags)
    (conn : ConnData) (opts : OptionsBag) (c : String) :
    countE (isMenuFor c) (schemaPhase cfg env f conn opts).events =
      if (!f.add_schema_to_help_done && optAddSchemaToHelp opts) = true ∧
         conn.connName = c then 1 else 0 := by
  unfold schemaPhase
  by_cases hp : (opts.popup_schema.getD false ||
      (!f.auto_popup_schema_done && optAutoPopupSchema opts cfg)) = true <;>
  by_cases hc : conn.connName = c <;>
  by_cases ha : (!f.add_schema_to_help_done && optAddSchemaToHelp opts) = true <;>
  by_cases hpe : env.schemaFilePath conn = "" <;>
    simp [hp, hc, ha, hpe, countE_append, countE_cons, countE_nil,
      countE_singleton, isMenuFor, beq_iff_eq, beq_eq_false_iff_ne]

theorem schemaPhase_getpath_le_one (cfg : Config) (env : Env) (f : ConnFlags)
    (conn : ConnData) (opts : OptionsBag)
    (h : env.schemaFilePath conn ≠ "") :
    countE isGetSchema (schemaPhase cfg env f conn opts).events ≤ 1 := by
  unfold schemaPhase
  by_cases hp : (opts.popup_schema.getD false ||
      (!f.auto_popup_schema_done && optAutoPopupSchema opts cfg)) = true <;>
  by_cases ha : (!f.add_schema_to_help_done && optAddSchemaToHelp opts) = true <;>
    simp [hp, ha, h, countE_append, countE_cons, countE_nil,
      countE_singleton, isGetSchema]

theorem schemaPhase_flags_auto (cfg : Config) (env : Env) (f : ConnFlags)
    (conn : ConnData) (opts : OptionsBag) :
    (schemaPhase cfg env f conn opts).flags.auto_popup_schema_done = true := by
  unfold schemaPhase
  by_cases hp : (opts.popup_schema.getD false ||
      (!f.auto_popup_schema_done && optAutoPopupSchema opts cfg)) = true <;>
  by_cases ha : (!f.add_schema_to_help_done && optAddSchemaToHelp opts) = true <;>
  by_cases hpe : env.schemaFilePath conn = "" <;>
    simp [hp, ha, hpe]

theorem schemaPhase_flags_add (cfg : Config) (env : Env) (f : ConnFlags)
    (conn : ConnData) (opts : OptionsBag) :
    (schemaPhase cfg env f conn opts).flags.add_schema_to_help_done =
      (f.add_schema_to_help_done || optAddSchemaToHelp opts) := by
  unfold schemaPhase
  by_cases hp : (opts.popup_schema.getD false ||
      (!f.auto_popup_schema_done && optAutoPopupSchema opts cfg)) = true <;>
    cases hf : f.add_schema_to_help_done <;>
    cases ho : optAddSchemaToHelp opts <;>
    by_cases hpe : env.schemaFilePath conn = "" <;>
      simp [hp, hf, ho, hpe]

theorem schemaPhase_flags_validate (cfg : Config) (env : Env) (f : ConnFlags)
    (conn : ConnData) (opts : OptionsBag) :
    (schemaPhase cfg env f conn opts).flags.validate_connection_string_done =
      f.validate_connection_string_done := by
  unfold schemaPhase
  by_cases hp : (opts.popup_schema.getD false ||
      (!f.auto_popup_schema_done && optAutoPopupSchema opts cfg)) = true <;>
  by_cases ha : (!f.add_schema_to_help_done && optAddSchemaToHelp opts) = true <;>
  by_cases hpe : env.schemaFilePath conn = "" <;>
    simp [hp, ha, hpe]

end Kqlmagic

/-! ### Per-run schema gating lemmas -/

namespace Kqlmagic

theorem count_zero_helper {n : Nat} {q : Prop} (h : n = 0) :
    n ≤ 1 ∧ (1 ≤ n → q) :=
  ⟨by omega, fun hh => False.elim (by omega)⟩

theorem run_popup_le (cfg : Config) (env : Env) (st : MagicState) (p : Parsed)
    (rs : Option RS) (c : String) :
    countE (isPopupFor c) (execute_query cfg env st p rs).events ≤ 1 ∧
    (1 ≤ countE (isPopupFor c) (execute_query cfg env st p rs).events →
      (getFlags (execute_query cfg env st p rs).registry c).auto_popup_schema_done = true) := by
  simp only [execute_query]
  split
  · exact count_zero_helper rfl
  · split
    next evs ret heq =>
      exact count_zero_helper
        (resolvePhase_handled_no_schema cfg env p.connection p.options evs ret c heq).1
    next conn heqr =>
      split
      next e heq2 =>
        refine count_zero_helper ?_
        rw [countE_append]
        rw [(validatePhase_no_schema cfg env (ensureConn st.registry conn.connName)
          conn p.connection p.options c).1]
        rw [(outerHandler_no_schema cfg env p.options _ _ _ e c).1]
      next heq2 =>
        split
        next qEvs ns2 ret2 heq3 =>
          rw [countE_append, countE_append]
          rw [(validatePhase_no_schema cfg env (ensureConn st.registry conn.connName)
            conn p.connection p.options c).1]
          rw [(queryPhase_ok_no_schema cfg env _ _ _ _ _ _ _ _ qEvs ns2 ret2 c heq3).1]
          rw [schemaPhase_popup_count]
          split
          next hcond =>
            constructor
            · omega
            · intro h1
              rw [getFlags_setReg]
              rw [if_pos hcond.2]
              exact schemaPhase_flags_auto cfg env _ _ p.options
          next hcond => exact count_zero_helper (by omega)
        next qEvs e heq3 =>
          rw [countE_append, countE_append, countE_append]
          rw [(validatePhase_no_schema cfg env (ensureConn st.registry conn.connName)
            conn p.connection p.options c).1]
          rw [(queryPhase_err_no_schema cfg env _ _ _ _ _ _ _ _ qEvs e c heq3).1]
          rw [(outerHandler_no_schema cfg env p.options _ _ _ e c).1]
          rw [schemaPhase_popup_count]
          split
          next hcond =>
            constructor
            · omega
            · intro h1
              rw [getFlags_setReg]
              rw [if_pos hcond.2]
              exact schemaPhase_flags_auto cfg env _ _ p.options
          next hcond => exact count_zero_helper (by omega)

end Kqlmagic

namespace Kqlmagic

theorem updFlags_auto (g : ConnFlags) :
    ({ g with validate_connection_string_done := true } : ConnFlags).auto_popup_schema_done
      = g.auto_popup_schema_done := rfl

theorem updFlags_add (g : ConnFlags) :
    ({ g with validate_connection_string_done := true } : ConnFlags).add_schema_to_help_done
      = g.add_schema_to_help_done := rfl

theorem getFlags_setReg_proj (reg : List (String × ConnFlags)) (n c : String)
    (f : ConnFlags) (proj : ConnFlags → Bool)
    (h1 : proj f = true) (h2 : proj (getFlags reg c) = true) :
    proj (getFlags (setReg reg n f) c) = true := by
  rw [getFlags_setReg]
  split
  · exact h1
  · exact h2

theorem schemaPhase_popup_zero (cfg : Config) (env : Env) (f : ConnFlags)
    (conn : ConnData) (opts : OptionsBag) (c : String)
    (hps : opts.popup_schema.getD false = false)
    (hf : conn.connName = c → f.auto_popup_schema_done = true) :
    countE (isPopupFor c) (schemaPhase cfg env f conn opts).events = 0 := by
  rw [schemaPhase_popup_count]
  split
  next hcond =>
    exfalso
    have hauto := hf hcond.2
    have h1 := hcond.1
    rw [hps, hauto] at h1
    simp at h1
  next => rfl

theorem schemaPhase_menu_zero (cfg : Config) (env : Env) (f : ConnFlags)
    (conn : ConnData) (opts : OptionsBag) (c : String)
    (hf : conn.connName = c → f.add_schema_to_help_done = true) :
    countE (isMenuFor c) (schemaPhase cfg env f conn opts).events = 0 := by
  rw [schemaPhase_menu_count]
  split
  next hcond =>
    exfalso
    have hadd := hf hcond.2
    have h1 := hcond.1
    rw [hadd] at h1
    simp at h1
  next => rfl

theorem run_popup_zero (cfg : Config) (env : Env) (st : MagicState) (p : Parsed)
    (rs : Option RS) (c : String)
    (hflag : (getFlags st.registry c).auto_popup_schema_done = true)
    (hps : p.options.popup_schema.getD false = false) :
    countE (isPopupFor c) (execute_query cfg env st p rs).events = 0 ∧
    (getFlags (execute_query cfg env st p rs).registry c).auto_popup_schema_done = true := by
  simp only [execute_query]
  split
  · exact ⟨rfl, hflag⟩
  · split
    next evs ret heq =>
      exact ⟨(resolvePhase_handled_no_schema cfg env p.connection p.options
        evs ret c heq).1, hflag⟩
    next conn heqr =>
      split
      next e heq2 =>
        constructor
        · rw [countE_append,
            (validatePhase_no_schema cfg env (ensureConn st.registry conn.connName)
              conn p.connection p.options c).1,
            (outerHandler_no_schema cfg env p.options _ _ _ e c).1]
        · rw [getFlags_ensureConn, getFlags_ensureConn]
          exact hflag
      next heq2 =>
        split
        next qEvs ns2 ret2 heq3 =>
          constructor
          · rw [countE_append, countE_append,
              (validatePhase_no_schema cfg env (ensureConn st.registry conn.connName)
                conn p.connection p.options c).1,
              (queryPhase_ok_no_schema cfg env _ _ _ _ _ _ _ _ qEvs ns2 ret2 c heq3).1]
            simp only [Nat.zero_add, Nat.add_zero]
            apply schemaPhase_popup_zero
            · exact hps
            · intro hn
              rw [updFlags_auto, hn, getFlags_ensureConn, getFlags_ensureConn]
              exact hflag
          · apply getFlags_setReg_proj _ _ _ _ (fun g => g.auto_popup_schema_done)
            · exact schemaPhase_flags_auto cfg env _ _ p.options
            · rw [getFlags_ensureConn, getFlags_ensureConn]
              exact hflag
        next qEvs e heq3 =>
          constructor
          · rw [countE_append, countE_append, countE_append,
              (validatePhase_no_schema cfg env (ensureConn st.registry conn.connName)
                conn p.connection p.options c).1,
              (queryPhase_err_no_schema cfg env _ _ _ _ _ _ _ _ qEvs e c heq3).1,
              (outerHandler_no_schema cfg env p.options _ _ _ e c).1]
            simp only [Nat.zero_add, Nat.add_zero]
            apply schemaPhase_popup_zero
            · exact hps
            · intro hn
              rw [updFlags_auto, hn, getFlags_ensureConn, getFlags_ensureConn]
              exact hflag
          · apply getFlags_setReg_proj _ _ _ _ (fun g => g.auto_popup_schema_done)
            · exact schemaPhase_flags_auto cfg env _ _ p.options
            · rw [getFlags_ensureConn, getFlags_ensureConn]
              exact hflag

end Kqlmagic

namespace Kqlmagic

theorem run_menu_le (cfg : Config) (env : Env) (st : MagicState) (p : Parsed)
    (rs : Option RS) (c : String) :
    countE (isMenuFor c) (execute_query cfg env st p rs).events ≤ 1 ∧
    (1 ≤ countE (isMenuFor c) (execute_query cfg env st p rs).events →
      (getFlags (execute_query cfg env st p rs).registry c).add_schema_to_help_done = true) := by
  simp only [execute_query]
  split
  · exact count_zero_helper rfl
  · split
    next evs ret heq =>
      exact count_zero_helper
        (resolvePhase_handled_no_schema cfg env p.connection p.options evs ret c heq).2
    next conn heqr =>
      split
      next e heq2 =>
        refine count_zero_helper ?_
        rw [countE_append]
        rw [(validatePhase_no_schema cfg env (ensureConn st.registry conn.connName)
          conn p.connection p.options c).2]
        rw [(outerHandler_no_schema cfg env p.options _ _ _ e c).2]
      next heq2 =>
        split
        next qEvs ns2 ret2 heq3 =>
          rw [countE_append, countE_append]
          rw [(validatePhase_no_schema cfg env (ensureConn st.registry conn.connName)
            conn p.connection p.options c).2]
          rw [(queryPhase_ok_no_schema cfg env _ _ _ _ _ _ _ _ qEvs ns2 ret2 c heq3).2]
          rw [schemaPhase_menu_count]
          split
          next hcond =>
            constructor
            · omega
            · intro h1
              rw [getFlags_setReg]
              rw [if_pos hcond.2]
              rw [schemaPhase_flags_add]
              have hopt : optAddSchemaToHelp p.options = true := by
                have hb := hcond.1
                simp only [Bool.and_eq_true] at hb
                exact hb.2
              rw [hopt, Bool.or_true]
          next hcond => exact count_zero_helper (by omega)
        next qEvs e heq3 =>
          rw [countE_append, countE_append, countE_append]
          rw [(validatePhase_no_schema cfg env (ensureConn st.registry conn.connName)
            conn p.connection p.options c).2]
          rw [(queryPhase_err_no_schema cfg env _ _ _ _ _ _ _ _ qEvs e c heq3).2]
          rw [(outerHandler_no_schema cfg env p.options _ _ _ e c).2]
          rw [schemaPhase_menu_count]
          split
          next hcond =>
            constructor
            · omega
            · intro h1
              rw [getFlags_setReg]
              rw [if_pos hcond.2]
              rw [schemaPhase_flags_add]
              have hopt : optAddSchemaToHelp p.options = true := by
                have hb := hcond.1
                simp only [Bool.and_eq_true] at hb
                exact hb.2
              rw [hopt, Bool.or_true]
          next hcond => exact count_zero_helper (by omega)

theorem run_menu_zero (cfg : Config) (env : Env) (st : MagicState) (p : Parsed)
    (rs : Option RS) (c : String)
    (hflag : (getFlags st.registry c).add_schema_to_help_done = true) :
    countE (isMenuFor c) (execute_query cfg env st p rs).events = 0 ∧
    (getFlags (execute_query cfg env st p rs).registry c).add_schema_to_help_done = true := by
  simp only [execute_query]
  split
  · exact ⟨rfl, hflag⟩
  · split
    next evs ret heq =>
      exact ⟨(resolvePhase_handled_no_schema cfg env p.connection p.options
        evs ret c heq).2, hflag⟩
    next conn heqr =>
      split
      next e heq2 =>
        constructor
        · rw [countE_append,
            (validatePhase_no_schema cfg env (ensureConn st.registry conn.connName)
              conn p.connection p.options c).2,
            (outerHandler_no_schema cfg env p.options _ _ _ e c).2]
        · rw [getFlags_ensureConn, getFlags_ensureConn]
          exact hflag
      next heq2 =>
        split
        next qEvs ns2 ret2 heq3 =>
          constructor
          · rw [countE_append, countE_append,
              (validatePhase_no_schema cfg env (ensureConn st.registry conn.connName)
                conn p.connection p.options c).2,
              (queryPhase_ok_no_schema cfg env _ _ _ _ _ _ _ _ qEvs ns2 ret2 c heq3).2]
            simp only [Nat.zero_add, Nat.add_zero]
            apply schemaPhase_menu_zero
            intro hn
            rw [updFlags_add, hn, getFlags_ensureConn, getFlags_ensureConn]
            exact hflag
          · rw [getFlags_setReg]
            split
            next hcase =>
              rw [schemaPhase_flags_add, updFlags_add, hcase,
                getFlags_ensureConn, getFlags_ensureConn, hflag]
              simp
            next hcase =>
              rw [getFlags_ensureConn, getFlags_ensureConn]
              exact hflag
        next qEvs e heq3 =>
          constructor
          · rw [countE_append, countE_append, countE_append,
              (validatePhase_no_schema cfg env (ensureConn st.registry conn.connName)
                conn p.connection p.options c).2,
              (queryPhase_err_no_schema cfg env _ _ _ _ _ _ _ _ qEvs e c heq3).2,
              (outerHandler_no_schema cfg env p.options _ _ _ e c).2]
            simp only [Nat.zero_add, Nat.add_zero]
            apply schemaPhase_menu_zero
            intro hn
            rw [updFlags_add, hn, getFlags_ensureConn, getFlags_ensureConn]
            exact hflag
          · rw [getFlags_setReg]
            split
            next hcase =>
              rw [schemaPhase_flags_add, updFlags_add, hcase,
                getFlags_ensureConn, getFlags_ensureConn, hflag]
              simp
            next hcase =>
              rw [getFlags_ensureConn, getFlags_ensureConn]
              exact hflag

end Kqlmagic

/-! ### resolvePhase / validatePhase characterizations -/

namespace Kqlmagic

theorem resolvePhase_ok (cfg : Config) (env : Env) (cs : String)
    (opts : OptionsBag) (conn : ConnData)
    (h : env.resolve cs = ResolveRes.ok conn) :
    resolvePhase cfg env cs opts = ResolveOutcome.got conn := by
  unfold resolvePhase
  rw [h]

theorem validatePhase_skip (cfg : Config) (env : Env)
    (reg : List (String × ConnFlags)) (conn : ConnData) (cs : String)
    (opts : OptionsBag)
    (h : (!(getFlags reg conn.connName).validate_connection_string_done &&
      optValidateCS opts cfg) = false) :
    validatePhase cfg env reg conn cs opts =
      { conn := conn, cs := cs, events := [], resolveCalls := []
        validateCalls := [], err := none } := by
  simp [validatePhase, h]

theorem validatePhase_nonmfa (cfg : Config) (env : Env)
    (reg : List (String × ConnFlags)) (conn : ConnData) (cs : String)
    (opts : OptionsBag) (m : String)
    (hflag : (getFlags reg conn.connName).validate_connection_string_done = false)
    (hvc : optValidateCS opts cfg = true)
    (hval : env.validateOutcome conn = some m)
    (hmfa : mfaSignature m conn.kind = false) :
    validatePhase cfg env reg conn cs opts =
      { conn := conn, cs := cs, events := [], resolveCalls := []
        validateCalls := [conn.connName], err := some (PyErr.exception m) } := by
  simp [validatePhase, hflag, hvc, hval, hmfa]

theorem validatePhase_mfa_calls (cfg : Config) (env : Env)
    (reg : List (String × ConnFlags)) (conn : ConnData) (cs : String)
    (opts : OptionsBag) (m : String) (conn2 : ConnData)
    (hflag : (getFlags reg conn.connName).validate_connection_string_done = false)
    (hvc : optValidateCS opts cfg = true)
    (hval : env.validateOutcome conn = some m)
    (hmfa : mfaSignature m conn.kind = true)
    (hres2 : env.resolve (codeConnStr conn) = ResolveRes.ok conn2) :
    (validatePhase cfg env reg conn cs opts).resolveCalls = [codeConnStr conn] ∧
    (validatePhase cfg env reg conn cs opts).validateCalls =
      [conn.connName, conn2.connName] := by
  cases hv2 : env.validateOutcome conn2 <;>
    simp [validatePhase, hflag, hvc, hval, hmfa, hres2, hv2]

/-! ### Concrete fixtures used by witnesses and counterexamples -/

/-- A Kusto connection as the registry would return it. -/
def connK : ConnData :=
  { kind := EngineKind.kusto, cluster := "clu", database := "db"
    connName := "db@clu", uriSchemaName := "kusto" }

/-- The device-code connection produced by the MFA retry. -/
def connCode : ConnData :=
  { kind := EngineKind.kusto, cluster := "clu", database := "db"
    connName := "code@clu", uriSchemaName := "kusto" }

/-- A small raw backend result. -/
def rawW : RawResult :=
  { columns := [("a", 1), ("b", 2)], isIncomplete := false, recordsCount := 5 }

/-- An MFA error message with both signature substrings at positive offsets. -/
def mfaMsgMid : String := "x AADSTS50079 multi-factor authentication"

/-- An MFA error message whose "AADSTS50079" sits at offset 0. -/
def mfaMsgHead : String := "AADSTS50079 multi-factor authentication"

/-- Environment where resolution succeeds for "k" and everything works. -/
def envPlain : Env :=
  { resolve := fun s => if s = "k" then ResolveRes.ok connK
      else ResolveRes.err (ResolveErr.kqlEngineErr "bad conn string")
    validateOutcome := fun _ => none
    executeOutcome := fun _ _ => ExecuteRes.ok rawW
    schemaFilePath := fun _ => "schema.html"
    expand := fun q => q
    connListFormatted := ["db@clu"]
    currentConnFormatted := "db@clu"
    startTime := 0, endTime := 1 }

/-- Environment whose validation of `connK` fails with the MFA message
at positive offsets and where the device-code string resolves. -/
def envMfa : Env :=
  { envPlain with
    resolve := fun s => if s = "k" then ResolveRes.ok connK
      else if s = codeConnStr connK then ResolveRes.ok connCode
      else ResolveRes.err (ResolveErr.kqlEngineErr "bad conn string")
    validateOutcome := fun cdata => if cdata = connK then some mfaMsgMid else none }

/-- Same, but the MFA message starts with "AADSTS50079" (offset 0). -/
def envMfaHead : Env :=
  { envMfa with
    validateOutcome := fun cdata => if cdata = connK then some mfaMsgHead else none }

/-- Empty process state. -/
def st0 : MagicState := { registry := [], ns := [] }

/-- State with one registered connection. -/
def stOne : MagicState := { registry := [("db@clu", freshFlags)], ns := [] }

/-- State where connK has already been validated. -/
def stDone : MagicState :=
  { registry := [("db@clu",
      { validate_connection_string_done := true
        auto_popup_schema_done := false
        add_schema_to_help_done := false })], ns := [] }

/-- A plain query invocation against connection string "k". -/
def pQuery : Parsed :=
  { line := "", cell := "", connection := "k", query := "T | take 1"
    options := emptyOptions }

/-- An invocation with empty query and empty connection text. -/
def pEmptyBoth : Parsed :=
  { line := "", cell := "", connection := "", query := ""
    options := emptyOptions }

/-- An invocation explicitly passing the popup_schema option. -/
def pPopup : Parsed :=
  { line := "", cell := "", connection := "k", query := "T | take 1"
    options := { emptyOptions with popup_schema := some true } }

/-- Configuration with short-error mode disabled. -/
def cfgNoShort : Config := { defaultConfig with short_errors := false }

/-- Environment whose backend execution fails. -/
def envErr : Env :=
  { envPlain with executeOutcome := fun _ _ => ExecuteRes.err "backend failed" }

/-- Invocation with columns_to_local_vars active. -/
def pC2lv : Parsed :=
  { line := "", cell := "", connection := "k", query := "T | take 1"
    options := { emptyOptions with columns_to_local_vars := some true } }

/-- Invocation with auto_dataframe and a result variable "x". -/
def pAdfRv : Parsed :=
  { line := "", cell := "", connection := "k", query := "T | take 1"
    options := { emptyOptions with
      auto_dataframe := some true
      result_var := some "x" } }

end Kqlmagic

/-! ### Claim C10 -/

namespace Kqlmagic

/-- C10: for every input cache_name, `execute_use_cache_command` leaves
the instance's `use_cache` attribute unchanged: it assigns only the
`cache` attribute (to cache_name when non-empty and not the string
"None", and to None otherwise), while `use_cache` keeps its prior value. -/
theorem C10_use_cache_frame (s : CacheState) (n : Option String) :
    (execute_use_cache_command s n).use_cache = s.use_cache ∧
    (execute_use_cache_command s n).cache =
      (match n with
       | some v => if v ≠ "None" ∧ v.length > 0 then some v else none
       | none => none) := by
  cases n with
  | none => simp [execute_use_cache_command]
  | some v =>
    by_cases h : v ≠ "None" ∧ v.length > 0 <;>
      simp [execute_use_cache_command, h]

/-! ### Claim C4 -/

/-- C4 counterexample: with empty query, empty connection text, and at
least one existing connection, `execute_query` returns None but emits no
event at all: the connection list is displayed zero times, not exactly
once as the claim states. -/
theorem C4_counterexample :
    stOne.registry ≠ [] ∧
    (execute_query defaultConfig envPlain stOne pEmptyBoth none).ret = PyRet.ok none ∧
    countE isShowConnList
      (execute_query defaultConfig envPlain stOne pEmptyBoth none).events ≠ 1 := by
  refine ⟨by decide, by decide, by decide⟩

/-- C4 (amended): for every invocation whose query text (stripped) and
connection text are both empty, `execute_query` returns None
immediately: it emits no display at all (the connection list is shown
zero times) and leaves the registry and namespace unchanged. -/
theorem C4_empty_invocation_noop (cfg : Config) (env : Env) (st : MagicState)
    (p : Parsed) (rs : Option RS)
    (h1 : pyStrip p.query = "") (h2 : p.connection = "") :
    (execute_query cfg env st p rs).events = [] ∧
    (execute_query cfg env st p rs).ret = PyRet.ok none ∧
    (execute_query cfg env st p rs).registry = st.registry ∧
    (execute_query cfg env st p rs).ns = st.ns := by
  simp [execute_query, h1, h2]

/-- C4 amended-claim witness at a concrete input. -/
theorem C4_empty_invocation_noop_witness :
    (execute_query defaultConfig envPlain stOne pEmptyBoth none).events = [] ∧
    (execute_query defaultConfig envPlain stOne pEmptyBoth none).ret = PyRet.ok none ∧
    (execute_query defaultConfig envPlain stOne pEmptyBoth none).registry = stOne.registry ∧
    (execute_query defaultConfig envPlain stOne pEmptyBoth none).ns = stOne.ns :=
  C4_empty_invocation_noop defaultConfig envPlain stOne pEmptyBoth none
    (by decide) (by decide)

/-! ### Claim C9 -/

/-- C9 counterexample: with the default configuration (whose
`add_schema_to_help` trait is True) and the option absent from the
invocation's bag, the help-menu registration does not fire on a fresh
connection: `options.get("add_schema_to_help")` has no trait fallback. -/
theorem C9_counterexample :
    defaultConfig.add_schema_to_help = true ∧
    countE (isMenuFor "db@clu")
      (execute_query defaultConfig envPlain st0 pQuery none).events = 0 := by
  refine ⟨rfl, by decide⟩

/-- C9 (amended): options consulted during execute_query fall back to
their like-named configuration traits when absent — feedback,
enable_suppress_result, auto_dataframe, columns_to_local_vars,
short_errors, validate_connection_string and auto_popup_schema — and
the trait defaults are as documented; but add_schema_to_help is read
with no trait fallback: when not supplied it is treated as disabled
regardless of the configuration trait. -/
theorem C9_option_defaults :
    (∀ o cfg, o.feedback = none → optFeedback o cfg = cfg.feedback) ∧
    (∀ o cfg, o.enable_suppress_result = none →
      optEnableSuppress o cfg = cfg.enable_suppress_result) ∧
    (∀ o cfg, o.auto_dataframe = none →
      optAutoDataframe o cfg = cfg.auto_dataframe) ∧
    (∀ o cfg, o.columns_to_local_vars = none →
      optC2LV o cfg = cfg.columns_to_local_vars) ∧
    (∀ o cfg, o.short_errors = none → optShortErrors o cfg = cfg.short_errors) ∧
    (∀ o cfg, o.validate_connection_string = none →
      optValidateCS o cfg = cfg.validate_connection_string) ∧
    (∀ o cfg, o.auto_popup_schema = none →
      optAutoPopupSchema o cfg = cfg.auto_popup_schema) ∧
    (∀ o, o.add_schema_to_help = none → optAddSchemaToHelp o = false) ∧
    defaultConfig.feedback = true ∧
    defaultConfig.short_errors = true ∧
    defaultConfig.enable_suppress_result = true ∧
    defaultConfig.auto_dataframe = false ∧
    defaultConfig.columns_to_local_vars = false ∧
    defaultConfig.validate_connection_string = true ∧
    defaultConfig.auto_popup_schema = true ∧
    defaultConfig.add_schema_to_help = true :=
  ⟨fun o cfg h => by simp [optFeedback, h],
   fun o cfg h => by simp [optEnableSuppress, h],
   fun o cfg h => by simp [optAutoDataframe, h],
   fun o cfg h => by simp [optC2LV, h],
   fun o cfg h => by simp [optShortErrors, h],
   fun o cfg h => by simp [optValidateCS, h],
   fun o cfg h => by simp [optAutoPopupSchema, h],
   fun o h => by simp [optAddSchemaToHelp, h],
   rfl, rfl, rfl, rfl, rfl, rfl, rfl, rfl⟩

/-- C9 amended-claim witness at a concrete input. -/
theorem C9_option_defaults_witness :
    optFeedback emptyOptions defaultConfig = defaultConfig.feedback ∧
    optAddSchemaToHelp emptyOptions = false :=
  ⟨C9_option_defaults.1 emptyOptions defaultConfig (by decide),
   C9_option_defaults.2.2.2.2.2.2.2.1 emptyOptions (by decide)⟩

end Kqlmagic

/-! ### Claims C1 and C3 -/

namespace Kqlmagic

/-- C1 (amended): when the one-time validation probe on a Kusto-kind
connection raises an error whose message contains "AADSTS50079" at a
strictly positive character offset and "multi-factor authentication" at
a strictly positive offset (the code tests `msg.find(...) > 0`, so a
signature starting at offset 0 does not count as a match), then, if the
device-code connection string for the same cluster and database
resolves, execute_query performs exactly one retry: it re-resolves
exactly that connection string and re-validates exactly once.  For a
validation error not matching that test, or on a non-Kusto connection,
no retry is performed and the error propagates to the outer error
handler unmodified (re-raised verbatim when short-error mode is off). -/
theorem C1_mfa_retry (cfg : Config) (env : Env) (st : MagicState)
    (p : Parsed) (rs : Option RS) (conn : ConnData) (m : String)
    (hne : ¬(pyStrip p.query = "" ∧ p.connection = ""))
    (hres : env.resolve p.connection = ResolveRes.ok conn)
    (hflag : (getFlags st.registry conn.connName).validate_connection_string_done = false)
    (hvc : optValidateCS p.options cfg = true)
    (hval : env.validateOutcome conn = some m) :
    (mfaSignature m conn.kind = true →
      ∀ conn2, env.resolve (codeConnStr conn) = ResolveRes.ok conn2 →
      (execute_query cfg env st p rs).resolveCalls =
        [p.connection, codeConnStr conn] ∧
      (execute_query cfg env st p rs).validateCalls =
        [conn.connName, conn2.connName]) ∧
    (mfaSignature m conn.kind = false →
      (execute_query cfg env st p rs).resolveCalls = [p.connection] ∧
      (execute_query cfg env st p rs).validateCalls = [conn.connName] ∧
      (optShortErrors p.options cfg = false →
        (execute_query cfg env st p rs).ret =
          PyRet.raised (PyErr.exception m))) := by
  constructor
  · intro hmfa conn2 hres2
    have hv := validatePhase_mfa_calls cfg env
      (ensureConn st.registry conn.connName) conn p.connection p.options m conn2
      (by rw [getFlags_ensureConn]; exact hflag) hvc hval hmfa hres2
    simp only [execute_query]
    rw [if_neg hne]
    simp only [resolvePhase_ok cfg env p.connection p.options conn hres]
    split
    next e heq2 => exact ⟨by simp [hv.1], by simp [hv.2]⟩
    next heq2 =>
      split
      next qEvs ns2 ret2 heq3 => exact ⟨by simp [hv.1], by simp [hv.2]⟩
      next qEvs e heq3 => exact ⟨by simp [hv.1], by simp [hv.2]⟩
  · intro hmfa
    have hv := validatePhase_nonmfa cfg env
      (ensureConn st.registry conn.connName) conn p.connection p.options m
      (by rw [getFlags_ensureConn]; exact hflag) hvc hval hmfa
    simp only [execute_query]
    rw [if_neg hne]
    simp only [resolvePhase_ok cfg env p.connection p.options conn hres]
    simp only [hv]
    refine ⟨by simp, by simp, ?_⟩
    intro hse
    simp [outerHandler, hse]

/-- C1 amended-claim witness: concrete MFA retry run. -/
theorem C1_mfa_retry_witness :
    (execute_query defaultConfig envMfa st0 pQuery none).resolveCalls =
      ["k", codeConnStr connK] ∧
    (execute_query defaultConfig envMfa st0 pQuery none).validateCalls =
      ["db@clu", "code@clu"] :=
  (C1_mfa_retry defaultConfig envMfa st0 pQuery none connK mfaMsgMid
    (by decide) (by decide) (by decide) (by decide) (by decide)).1
    (by decide) connCode (by decide)

/-- C1 counterexample: a validation error message containing both
"AADSTS50079" (at offset 0) and "multi-factor authentication" on a
Kusto connection: the signature is contained in the message, yet no
retry happens — the probe runs once, the device-code string is never
resolved, and the error propagates. -/
theorem C1_counterexample :
    (pyFind mfaMsgHead "AADSTS50079" ≥ 0 ∧
     pyFind mfaMsgHead "multi-factor authentication" ≥ 0 ∧
     connK.kind = EngineKind.kusto) ∧
    (execute_query cfgNoShort envMfaHead st0 pQuery none).validateCalls =
      ["db@clu"] ∧
    (execute_query cfgNoShort envMfaHead st0 pQuery none).resolveCalls = ["k"] ∧
    (execute_query cfgNoShort envMfaHead st0 pQuery none).ret =
      PyRet.raised (PyErr.exception mfaMsgHead) := by
  refine ⟨⟨by decide, by decide, rfl⟩, by decide, by decide, by decide⟩

/-- C3: once a query has completed validation on a connection (its
validate_connection_string_done flag is set), a later execute_query
resolving that same connection performs no validation probe at all,
whatever the validate_connection_string option says. -/
theorem C3_validate_once (cfg : Config) (env : Env) (st : MagicState)
    (p : Parsed) (rs : Option RS) (conn : ConnData)
    (hres : env.resolve p.connection = ResolveRes.ok conn)
    (hdone : (getFlags st.registry conn.connName).validate_connection_string_done = true) :
    (execute_query cfg env st p rs).validateCalls = [] := by
  simp only [execute_query]
  split
  · rfl
  · simp only [resolvePhase_ok cfg env p.connection p.options conn hres]
    have hv := validatePhase_skip cfg env (ensureConn st.registry conn.connName)
      conn p.connection p.options (by rw [getFlags_ensureConn, hdone]; rfl)
    simp only [hv]
    split <;> rfl

/-- C3 witness: an already-validated connection triggers no probe. -/
theorem C3_validate_once_witness :
    (execute_query defaultConfig envPlain stDone pQuery none).validateCalls = [] :=
  C3_validate_once defaultConfig envPlain stDone pQuery none connK
    (by decide) (by decide)

end Kqlmagic

/-! ### Claim C2 -/

namespace Kqlmagic

theorem resolvePhase_short_ok (cfg : Config) (env : Env) (cs : String)
    (opts : OptionsBag) (evs : List Event) (ret : PyRet)
    (h : resolvePhase cfg env cs opts = ResolveOutcome.handled evs ret)
    (hs : optShortErrors opts cfg = true) : ret = PyRet.ok none := by
  unfold resolvePhase at h
  split at h
  · exact ResolveOutcome.noConfusion h
  · split at h
    next hcond => cases h; rfl
    next hcond => exact absurd hs hcond
  · split at h
    next hcond => cases h; rfl
    next hcond => exact absurd hs hcond

theorem outerHandler_short_ok (cfg : Config) (env : Env) (opts : OptionsBag)
    (cs : String) (reg sup : Bool) (e : PyErr)
    (hs : optShortErrors opts cfg = true) :
    (outerHandler cfg env opts cs reg sup e).2 = PyRet.ok none := by
  simp [outerHandler, hs]

theorem outerHandler_noshort (cfg : Config) (env : Env) (opts : OptionsBag)
    (cs : String) (reg sup : Bool) (e : PyErr)
    (hs : optShortErrors opts cfg = false) :
    (outerHandler cfg env opts cs reg sup e).2 = PyRet.raised e := by
  simp [outerHandler, hs]

theorem queryPhase_exec_err (cfg : Config) (env : Env) (rne : Bool)
    (ns0 : List (String × Value)) (conn : ConnData) (cs query : String)
    (opts : OptionsBag) (sup : Bool) (rs : Option RS) (m : String)
    (hq : ¬ query = "")
    (hexec : env.executeOutcome conn (pqOf env query rs) = ExecuteRes.err m) :
    queryPhase cfg env rne ns0 conn cs query opts sup rs =
      QueryOutcome.err [Event.executeCall conn.connName (pqOf env query rs)]
        (PyErr.exception m) := by
  simp [queryPhase, hq, hexec]

theorem queryPhase_exec_ok (cfg : Config) (env : Env) (rne : Bool)
    (ns0 : List (String × Value)) (conn : ConnData) (cs query : String)
    (opts : OptionsBag) (sup : Bool) (rs : Option RS) (raw : RawResult)
    (hq : ¬ query = "")
    (hexec : env.executeOutcome conn (pqOf env query rs) = ExecuteRes.ok raw) :
    queryPhase cfg env rne ns0 conn cs query opts sup rs =
      QueryOutcome.ok
        ([Event.executeCall conn.connName (pqOf env query rs)] ++
          (shapePhase cfg env rne ns0 conn cs opts sup rs (pqOf env query rs) raw).events)
        ((shapePhase cfg env rne ns0 conn cs opts sup rs (pqOf env query rs) raw).ns)
        ((shapePhase cfg env rne ns0 conn cs opts sup rs (pqOf env query rs) raw).ret) := by
  simp [queryPhase, hq, hexec]

/-- C2: error policy.  (1) When short-error mode (option, falling back
to the short_errors trait) is on, no exception whatsoever escapes
execute_query: it always returns a value.  (2) The outer handler
re-raises the original exception object unmodified when short-error
mode is off, and (3) its display sequence is: the connection list first
(exactly when no explicit connection string was given, a connection
exists and results aren't suppressed, and the formatted info is
non-empty), then the short danger message (exactly when short-error
mode is on).  (4) Concretely, a backend execution error with short-error
mode off propagates out of execute_query unmodified.  (5) The
short_errors trait defaults to True. -/
theorem C2_short_error_policy :
    (∀ (cfg : Config) (env : Env) (st : MagicState) (p : Parsed)
      (rs : Option RS), optShortErrors p.options cfg = true →
      ∃ v, (execute_query cfg env st p rs).ret = PyRet.ok v) ∧
    (∀ (cfg : Config) (env : Env) (opts : OptionsBag) (cs : String)
      (reg sup : Bool) (e : PyErr), optShortErrors opts cfg = false →
      (outerHandler cfg env opts cs reg sup e).2 = PyRet.raised e) ∧
    (∀ (cfg : Config) (env : Env) (opts : OptionsBag) (cs : String)
      (reg sup : Bool) (e : PyErr),
      (outerHandler cfg env opts cs reg sup e).1 =
        (if cs = "" ∧ reg = true ∧ (!sup) = true then
          show_connection_info_events env (optShowConnInfo opts cfg)
        else []) ++
        (if optShortErrors opts cfg = true then [Event.dangerMessage e.msg]
        else [])) ∧
    (∀ (cfg : Config) (env : Env) (st : MagicState) (p : Parsed)
      (rs : Option RS) (conn : ConnData) (m : String),
      ¬ pyStrip p.query = "" →
      env.resolve p.connection = ResolveRes.ok conn →
      (getFlags st.registry conn.connName).validate_connection_string_done = true →
      env.executeOutcome conn (pqOf env (pyStrip p.query) rs) = ExecuteRes.err m →
      optShortErrors p.options cfg = false →
      (execute_query cfg env st p rs).ret = PyRet.raised (PyErr.exception m)) ∧
    defaultConfig.short_errors = true := by
  refine ⟨?_, ?_, ?_, ?_, rfl⟩
  · intro cfg env st p rs hs
    simp only [execute_query]
    split
    · exact ⟨none, rfl⟩
    · split
      next evs ret heq =>
        exact ⟨none, by
          simp [resolvePhase_short_ok cfg env p.connection p.options evs ret heq hs]⟩
      next conn heqr =>
        split
        next e heq2 =>
          exact ⟨none, by
            simp [outerHandler_short_ok cfg env p.options _ _ _ e hs]⟩
        next heq2 =>
          split
          next qEvs ns2 ret2 heq3 => exact ⟨ret2, rfl⟩
          next qEvs e heq3 =>
            exact ⟨none, by
              simp [outerHandler_short_ok cfg env p.options _ _ _ e hs]⟩
  · intro cfg env opts cs reg sup e hs
    exact outerHandler_noshort cfg env opts cs reg sup e hs
  · intro cfg env opts cs reg sup e
    unfold outerHandler
    split <;> split <;> simp_all
  · intro cfg env st p rs conn m hq hres hdone hexec hs
    simp only [execute_query]
    rw [if_neg (fun hc => hq hc.1)]
    simp only [resolvePhase_ok cfg env p.connection p.options conn hres]
    simp only [validatePhase_skip cfg env (ensureConn st.registry conn.connName)
      conn p.connection p.options (by rw [getFlags_ensureConn, hdone]; rfl)]
    rw [queryPhase_exec_err _ _ _ _ _ _ _ _ _ _ _ hq hexec]
    simp [outerHandler, hs]

/-- C2 witness: concrete short-error and propagation runs. -/
theorem C2_short_error_policy_witness :
    (∃ v, (execute_query defaultConfig envErr st0 pQuery none).ret = PyRet.ok v) ∧
    (execute_query cfgNoShort envErr stDone pQuery none).ret =
      PyRet.raised (PyErr.exception "backend failed") :=
  ⟨C2_short_error_policy.1 defaultConfig envErr st0 pQuery none (by decide),
   C2_short_error_policy.2.2.2.1 cfgNoShort envErr stDone pQuery none connK
     "backend failed" (by decide) (by decide) (by decide) (by decide) (by decide)⟩

end Kqlmagic

/-! ### Claims C5, C6, C7 -/

namespace Kqlmagic

/-- On the happy path (resolution succeeds, validation already done,
non-empty query, backend execution returns a raw result), the returned
value and the namespace of execute_query are exactly those produced by
the result-shaping pipeline. -/
theorem execute_query_happy (cfg : Config) (env : Env) (st : MagicState)
    (p : Parsed) (rs : Option RS) (conn : ConnData) (raw : RawResult)
    (hq : ¬ pyStrip p.query = "")
    (hres : env.resolve p.connection = ResolveRes.ok conn)
    (hdone : (getFlags st.registry conn.connName).validate_connection_string_done = true)
    (hexec : env.executeOutcome conn (pqOf env (pyStrip p.query) rs) =
      ExecuteRes.ok raw) :
    ∃ rne : Bool,
      (execute_query cfg env st p rs).ret =
        PyRet.ok (shapePhase cfg env rne st.ns conn p.connection p.options
          (pySuppressResults p.options cfg) rs (pqOf env (pyStrip p.query) rs) raw).ret ∧
      (execute_query cfg env st p rs).ns =
        (shapePhase cfg env rne st.ns conn p.connection p.options
          (pySuppressResults p.options cfg) rs (pqOf env (pyStrip p.query) rs) raw).ns := by
  refine ⟨?_, ?_, ?_⟩
  case _ =>
    exact !(setReg (ensureConn (ensureConn st.registry conn.connName) conn.connName)
      conn.connName
      (schemaPhase cfg env
        { getFlags (ensureConn (ensureConn st.registry conn.connName) conn.connName)
            conn.connName with validate_connection_string_done := true }
        conn p.options).flags).isEmpty
  all_goals
    simp only [execute_query]
    rw [if_neg (fun hc => hq hc.1)]
    simp only [resolvePhase_ok cfg env p.connection p.options conn hres]
    simp only [validatePhase_skip cfg env (ensureConn st.registry conn.connName)
      conn p.connection p.options (by rw [getFlags_ensureConn, hdone]; rfl)]
    rw [queryPhase_exec_ok _ _ _ _ _ _ _ _ _ _ _ hq hexec]

theorem shapePhase_lastvar (cfg : Config) (env : Env) (rne : Bool)
    (ns0 : List (String × Value)) (conn : ConnData) (cs : String)
    (opts : OptionsBag) (sup : Bool) (rs : Option RS) (pq : String)
    (raw : RawResult) :
    List.lookup (optLastVar opts cfg)
      (shapePhase cfg env rne ns0 conn cs opts sup rs pq raw).ns =
      some (Value.rs (shapePhase cfg env rne ns0 conn cs opts sup rs pq raw).saved) ∧
    (shapePhase cfg env rne ns0 conn cs opts sup rs pq raw).saved.raw = raw := by
  constructor
  · simp only [shapePhase]
    simp [List.lookup]
  · cases rs <;> rfl

/-- C5: whenever the pipeline completes (resolution succeeds, validation
is already done, the query is non-empty and backend execution returns a
raw result), the last-raw-result variable — the last_raw_result_var
option falling back to the like-named trait — is rebound in the user
namespace to the final (fresh or updated) ResultSet carrying the new
raw result, regardless of suppression, dataframe conversion or
result_var binding. -/
theorem C5_last_raw_result (cfg : Config) (env : Env) (st : MagicState)
    (p : Parsed) (rs : Option RS) (conn : ConnData) (raw : RawResult)
    (hq : ¬ pyStrip p.query = "")
    (hres : env.resolve p.connection = ResolveRes.ok conn)
    (hdone : (getFlags st.registry conn.connName).validate_connection_string_done = true)
    (hexec : env.executeOutcome conn (pqOf env (pyStrip p.query) rs) =
      ExecuteRes.ok raw) :
    ∃ r : RS,
      List.lookup (optLastVar p.options cfg) (execute_query cfg env st p rs).ns =
        some (Value.rs r) ∧ r.raw = raw := by
  obtain ⟨rne, hret, hns⟩ :=
    execute_query_happy cfg env st p rs conn raw hq hres hdone hexec
  rw [hns]
  exact ⟨_, (shapePhase_lastvar cfg env rne st.ns conn p.connection p.options
      (pySuppressResults p.options cfg) rs (pqOf env (pyStrip p.query) rs) raw).1,
    (shapePhase_lastvar cfg env rne st.ns conn p.connection p.options
      (pySuppressResults p.options cfg) rs (pqOf env (pyStrip p.query) rs) raw).2⟩

/-- C5 witness: concrete run rebinding the default last-var. -/
theorem C5_last_raw_result_witness :
    ∃ r : RS,
      List.lookup (optLastVar pQuery.options defaultConfig)
        (execute_query defaultConfig envPlain stDone pQuery none).ns =
        some (Value.rs r) ∧ r.raw = rawW :=
  C5_last_raw_result defaultConfig envPlain stDone pQuery none connK rawW
    (by decide) (by decide) (by decide) (by decide)

theorem lookup_map_cols (cols : List (String × Nat)) (c : String) (d : Nat)
    (ns0 : List (String × Value))
    (hnodup : (cols.map Prod.fst).Nodup) (hmem : (c, d) ∈ cols) :
    List.lookup c ((cols.map (fun cd => (cd.1, Value.data cd.2))) ++ ns0) =
      some (Value.data d) := by
  induction cols with
  | nil => cases hmem
  | cons hd tl ih =>
    rw [List.map_cons, List.nodup_cons] at hnodup
    rcases List.mem_cons.mp hmem with heq | hmem2
    · rw [← heq]
      simp [List.lookup]
    · have hne : ¬ c = hd.1 := by
        intro hh
        exact hnodup.1 (hh ▸ List.mem_map_of_mem Prod.fst hmem2)
      have hb : (c == hd.1) = false := beq_eq_false_iff_ne.mpr hne
      simp only [List.map_cons, List.cons_append, List.lookup, hb]
      exact ih hnodup.2 hmem2

theorem shapePhase_c2lv (cfg : Config) (env : Env) (rne : Bool)
    (ns0 : List (String × Value)) (conn : ConnData) (cs : String)
    (opts : OptionsBag) (sup : Bool) (rs : Option RS) (pq : String)
    (raw : RawResult)
    (hc2 : optC2LV opts cfg = true)
    (hadf : optAutoDataframe opts cfg = false)
    (hrv : opts.result_var = none) :
    (shapePhase cfg env rne ns0 conn cs opts sup rs pq raw).ret = none ∧
    (shapePhase cfg env rne ns0 conn cs opts sup rs pq raw).ns =
      (optLastVar opts cfg,
        Value.rs (shapePhase cfg env rne ns0 conn cs opts sup rs pq raw).saved) ::
      ((raw.columns.map (fun cd => (cd.1, Value.data cd.2))) ++ ns0) := by
  constructor <;>
  · simp only [shapePhase]
    simp [hc2, hadf, hrv, optStrTruthy]

/-- C6: with columns_to_local_vars active and auto_dataframe/result_var
not set, every result column (distinct column names; a column named
like the last-raw-result variable is then shadowed by that documented
rebinding) is bound in the caller's namespace as a like-named variable
holding its data, and execute_query returns None. -/
theorem C6_columns_to_local_vars (cfg : Config) (env : Env) (st : MagicState)
    (p : Parsed) (conn : ConnData) (raw : RawResult)
    (hq : ¬ pyStrip p.query = "")
    (hres : env.resolve p.connection = ResolveRes.ok conn)
    (hdone : (getFlags st.registry conn.connName).validate_connection_string_done = true)
    (hexec : env.executeOutcome conn (pqOf env (pyStrip p.query) none) =
      ExecuteRes.ok raw)
    (hc2 : optC2LV p.options cfg = true)
    (hadf : optAutoDataframe p.options cfg = false)
    (hrv : p.options.result_var = none)
    (hnodup : (raw.columns.map Prod.fst).Nodup) :
    (execute_query cfg env st p none).ret = PyRet.ok none ∧
    ∀ cd ∈ raw.columns, ¬ cd.1 = optLastVar p.options cfg →
      List.lookup cd.1 (execute_query cfg env st p none).ns =
        some (Value.data cd.2) := by
  obtain ⟨rne, hret, hns⟩ :=
    execute_query_happy cfg env st p none conn raw hq hres hdone hexec
  have hsh := shapePhase_c2lv cfg env rne st.ns conn p.connection p.options
    (pySuppressResults p.options cfg) none (pqOf env (pyStrip p.query) none) raw
    hc2 hadf hrv
  constructor
  · rw [hret, hsh.1]
  · intro cd hcd hne
    rw [hns, hsh.2]
    have hb : (cd.1 == optLastVar p.options cfg) = false :=
      beq_eq_false_iff_ne.mpr hne
    simp only [List.lookup, hb]
    exact lookup_map_cols raw.columns cd.1 cd.2 st.ns hnodup hcd

/-- C6 witness: a concrete columns_to_local_vars run binds columns a, b. -/
theorem C6_columns_to_local_vars_witness :
    (execute_query defaultConfig envPlain stDone pC2lv none).ret = PyRet.ok none ∧
    ∀ cd ∈ rawW.columns, ¬ cd.1 = optLastVar pC2lv.options defaultConfig →
      List.lookup cd.1 (execute_query defaultConfig envPlain stDone pC2lv none).ns =
        some (Value.data cd.2) :=
  C6_columns_to_local_vars defaultConfig envPlain stDone pC2lv connK rawW
    (by decide) (by decide) (by decide) (by decide) (by decide) (by decide)
    (by decide) (by decide)

theorem shapePhase_adf_rv (cfg : Config) (env : Env) (rne : Bool)
    (ns0 : List (String × Value)) (conn : ConnData) (cs : String)
    (opts : OptionsBag) (sup : Bool) (pq : String) (raw : RawResult)
    (x : String)
    (hadf : optAutoDataframe opts cfg = true)
    (hrv : opts.result_var = some x) (hx : ¬ x = "") :
    (shapePhase cfg env rne ns0 conn cs opts sup none pq raw).ret = none ∧
    ∃ tail, (shapePhase cfg env rne ns0 conn cs opts sup none pq raw).ns =
      (optLastVar opts cfg,
        Value.rs (shapePhase cfg env rne ns0 conn cs opts sup none pq raw).saved) ::
      (x, Value.df raw) :: tail := by
  constructor
  · simp only [shapePhase]
    simp [hadf, hrv, optStrTruthy, hx]
  · refine ⟨if optC2LV opts cfg then
      (raw.columns.map (fun cd => (cd.1, Value.data cd.2))) ++ ns0 else ns0, ?_⟩
    simp only [shapePhase]
    simp [hadf, hrv, optStrTruthy, hx]

/-- C7: with auto_dataframe active and result_var set to x on a
top-level (non-fork-continuation) execution, the namespace variable x
is bound to the dataframe conversion of the raw result and
execute_query returns None (x distinct from the last-raw-result
variable name, which is rebound afterwards). -/
theorem C7_auto_dataframe_result_var (cfg : Config) (env : Env)
    (st : MagicState) (p : Parsed) (conn : ConnData) (raw : RawResult)
    (x : String)
    (hq : ¬ pyStrip p.query = "")
    (hres : env.resolve p.connection = ResolveRes.ok conn)
    (hdone : (getFlags st.registry conn.connName).validate_connection_string_done = true)
    (hexec : env.executeOutcome conn (pqOf env (pyStrip p.query) none) =
      ExecuteRes.ok raw)
    (hadf : optAutoDataframe p.options cfg = true)
    (hrv : p.options.result_var = some x) (hx : ¬ x = "")
    (hne : ¬ x = optLastVar p.options cfg) :
    (execute_query cfg env st p none).ret = PyRet.ok none ∧
    List.lookup x (execute_query cfg env st p none).ns =
      some (Value.df raw) := by
  obtain ⟨rne, hret, hns⟩ :=
    execute_query_happy cfg env st p none conn raw hq hres hdone hexec
  have hsh := shapePhase_adf_rv cfg env rne st.ns conn p.connection p.options
    (pySuppressResults p.options cfg) (pqOf env (pyStrip p.query) none) raw x
    hadf hrv hx
  constructor
  · rw [hret, hsh.1]
  · obtain ⟨tail, htail⟩ := hsh.2
    rw [hns, htail]
    have hb : (x == optLastVar p.options cfg) = false :=
      beq_eq_false_iff_ne.mpr hne
    simp [List.lookup, hb]

/-- C7 witness: concrete auto_dataframe + result_var run. -/
theorem C7_auto_dataframe_result_var_witness :
    (execute_query defaultConfig envPlain stDone pAdfRv none).ret = PyRet.ok none ∧
    List.lookup "x" (execute_query defaultConfig envPlain stDone pAdfRv none).ns =
      some (Value.df rawW) :=
  C7_auto_dataframe_result_var defaultConfig envPlain stDone pAdfRv connK rawW "x"
    (by decide) (by decide) (by decide) (by decide) (by decide) (by decide)
    (by decide) (by decide)

end Kqlmagic

/-! ### Claim C8 -/

namespace Kqlmagic

theorem seq_popup_zero (cfg : Config) (env : Env) (c : String) :
    ∀ (ps : List Parsed) (st : MagicState),
    (getFlags st.registry c).auto_popup_schema_done = true →
    (∀ p ∈ ps, p.options.popup_schema.getD false = false) →
    countE (isPopupFor c) (runSeq cfg env st ps).2 = 0 := by
  intro ps
  induction ps with
  | nil => intro st h1 h2; rfl
  | cons p rest ih =>
    intro st h1 h2
    have hz := run_popup_zero cfg env st p none c h1 (h2 p (by simp))
    simp only [runSeq]
    rw [countE_append, hz.1, ih _ hz.2 (fun q hq => h2 q (by simp [hq]))]

theorem seq_popup_le_one (cfg : Config) (env : Env) (c : String) :
    ∀ (ps : List Parsed) (st : MagicState),
    (∀ p ∈ ps, p.options.popup_schema.getD false = false) →
    countE (isPopupFor c) (runSeq cfg env st ps).2 ≤ 1 := by
  intro ps
  induction ps with
  | nil => intro st h2; simp [runSeq, countE_nil]
  | cons p rest ih =>
    intro st h2
    simp only [runSeq]
    rw [countE_append]
    rcases Nat.eq_zero_or_pos
      (countE (isPopupFor c) (execute_query cfg env st p none).events) with h0 | h1
    · rw [h0]
      simpa using ih _ (fun q hq => h2 q (by simp [hq]))
    · have hle := (run_popup_le cfg env st p none c).1
      have hfl := (run_popup_le cfg env st p none c).2 h1
      have hz := seq_popup_zero cfg env c rest
        { registry := (execute_query cfg env st p none).registry
          ns := (execute_query cfg env st p none).ns } hfl
        (fun q hq => h2 q (by simp [hq]))
      omega

theorem seq_menu_zero (cfg : Config) (env : Env) (c : String) :
    ∀ (ps : List Parsed) (st : MagicState),
    (getFlags st.registry c).add_schema_to_help_done = true →
    countE (isMenuFor c) (runSeq cfg env st ps).2 = 0 := by
  intro ps
  induction ps with
  | nil => intro st h1; rfl
  | cons p rest ih =>
    intro st h1
    have hz := run_menu_zero cfg env st p none c h1
    simp only [runSeq]
    rw [countE_append, hz.1, ih _ hz.2]

theorem seq_menu_le_one (cfg : Config) (env : Env) (c : String) :
    ∀ (ps : List Parsed) (st : MagicState),
    countE (isMenuFor c) (runSeq cfg env st ps).2 ≤ 1 := by
  intro ps
  induction ps with
  | nil => intro st; simp [runSeq, countE_nil]
  | cons p rest ih =>
    intro st
    simp only [runSeq]
    rw [countE_append]
    rcases Nat.eq_zero_or_pos
      (countE (isMenuFor c) (execute_query cfg env st p none).events) with h0 | h1
    · rw [h0]
      simpa using ih _
    · have hle := (run_menu_le cfg env st p none c).1
      have hfl := (run_menu_le cfg env st p none c).2 h1
      have hz := seq_menu_zero cfg env c rest
        { registry := (execute_query cfg env st p none).registry
          ns := (execute_query cfg env st p none).ns } hfl
      omega

/-- C8 counterexample: two consecutive invocations that explicitly pass
the popup_schema option trigger the schema popup twice for the same
connection — the explicit option bypasses the auto_popup_schema_done
flag, so "at most once per connection" fails as stated. -/
theorem C8_counterexample :
    countE (isPopupFor "db@clu")
      (runSeq defaultConfig envPlain st0 [pPopup, pPopup]).2 = 2 := by
  decide

/-- C8 (amended): across any sequence of invocations in one process,
(1) provided no invocation passes the explicit popup_schema option
(which bypasses the flag and forces a popup each time it is supplied),
the schema popup fires at most once per connection, gated by the
auto_popup_schema_done flag; (2) the help-menu registration fires at
most once per connection unconditionally, gated by the
add_schema_to_help_done flag; and (3) within a single invocation the
schema file path is computed at most once — when it is non-empty the
popup branch's path is reused by the help-registration branch. -/
theorem C8_schema_once :
    (∀ (cfg : Config) (env : Env) (st : MagicState) (ps : List Parsed)
      (c : String),
      (∀ p ∈ ps, p.options.popup_schema.getD false = false) →
      countE (isPopupFor c) (runSeq cfg env st ps).2 ≤ 1) ∧
    (∀ (cfg : Config) (env : Env) (st : MagicState) (ps : List Parsed)
      (c : String),
      countE (isMenuFor c) (runSeq cfg env st ps).2 ≤ 1) ∧
    (∀ (cfg : Config) (env : Env) (f : ConnFlags) (conn : ConnData)
      (opts : OptionsBag), env.schemaFilePath conn ≠ "" →
      countE isGetSchema (schemaPhase cfg env f conn opts).events ≤ 1) :=
  ⟨fun cfg env st ps c h => seq_popup_le_one cfg env c ps st h,
   fun cfg env st ps c => seq_menu_le_one cfg env c ps st,
   fun cfg env f conn opts h => schemaPhase_getpath_le_one cfg env f conn opts h⟩

/-- C8 amended-claim witness: two plain runs on the same connection
popup and register at most once, and the path is computed once. -/
theorem C8_schema_once_witness :
    countE (isPopupFor "db@clu")
      (runSeq defaultConfig envPlain st0 [pQuery, pQuery]).2 ≤ 1 ∧
    countE (isMenuFor "db@clu")
      (runSeq defaultConfig envPlain st0 [pQuery, pQuery]).2 ≤ 1 ∧
    countE isGetSchema
      (schemaPhase defaultConfig envPlain freshFlags connK emptyOptions).events ≤ 1 :=
  ⟨C8_schema_once.1 defaultConfig envPlain st0 [pQuery, pQuery] "db@clu"
      (by intro p hp; simp only [List.mem_cons, List.not_mem_nil, or_false,
        or_self] at hp; rw [hp]; decide),
   C8_schema_once.2.1 defaultConfig envPlain st0 [pQuery, pQuery] "db@clu",
   C8_schema_once.2.2 defaultConfig envPlain freshFlags connK emptyOptions
     (by decide)⟩

end Kqlmagic
